import Mathlib

/-!
Verification of the raiden mediator state machine and the datagram
protocol layer against their natural-language specification.

The definitions below are a shallow embedding of
`src/raiden/transfer/mediated_transfer/mediator.py` and
`src/raiden/network/protocol.py`.  Python in-place mutation becomes
explicit state passing, Python exceptions (asserts, `KeyError`,
`AttributeError`, `ValueError`) become `Option` results (`none` means the
call raised), and machine integers are `Nat`/`Int`.  Code of the
repository that is imported by those two files but whose source is not
available (the `channel` module, the state class bodies, `secret_registry`,
constants from `settings.py`/`constants.py`, the message codec) is
modelled from the specification; every such definition carries a doc
comment starting with `Modelled from the spec:`.
-/

namespace Raiden

abbrev Address := Nat
abbrev ChannelId := Nat
abbrev SecretHash := Nat
abbrev Secret := Nat
abbrev TokenAddr := Nat

/-- Modelled from the spec: `MAXIMUM_PENDING_TRANSFERS` from
`raiden/constants.py` (not in the source tree); the spec only names the
constant, the concrete value is irrelevant to every claim. -/
def MAXIMUM_PENDING_TRANSFERS : Nat := 160

/-- Modelled from the spec: `DEFAULT_NUMBER_OF_CONFIRMATIONS_BLOCK` from
`raiden/settings.py` (not in the source tree); the spec only names the
constant. -/
def DEFAULT_NUMBER_OF_CONFIRMATIONS_BLOCK : Nat := 15

/-- Modelled from the spec: the marker channel identifier of the global
queue used by `SendRevealSecret`/`SendProcessed`
(`raiden/transfer/mediated_transfer/events.py`, not in the source tree). -/
def CHANNEL_IDENTIFIER_GLOBAL_QUEUE : ChannelId := 0

/-- Modelled from the spec: a hash time lock,
`{amount, expiration: block, secrethash}` (§3 of the spec; the class body
in `raiden/transfer/state.py` is not in the source tree). -/
structure HashTimeLockState where
  amount : Nat
  expiration : Nat
  secrethash : SecretHash
deriving DecidableEq, Repr

/-- Modelled from the spec: a balance proof (§3).  Only the two fields
the embedded mediator code reads are carried. -/
structure BalanceProofState where
  channel_identifier : ChannelId
  sender : Address
deriving DecidableEq, Repr

/-- Modelled from the spec: a locked transfer (§3).  The signed/unsigned
provenance split is not represented; the embedded code distinguishes the
two only through `isinstance` checks that are always satisfied at its
call sites. -/
structure LockedTransferState where
  payment_identifier : Nat
  token : TokenAddr
  lock : HashTimeLockState
  initiator : Address
  target : Address
  balance_proof : BalanceProofState
deriving DecidableEq, Repr

/-- Payer-side state of a mediation pair, the six string constants of
`MediationPairState.valid_payer_states` (§3). -/
inductive PayerState where
  | payer_pending
  | payer_secret_revealed
  | payer_waiting_close
  | payer_waiting_unlock
  | payer_balance_proof
  | payer_expired
deriving DecidableEq, Repr

/-- Payee-side state of a mediation pair, the five string constants of
`MediationPairState.valid_payee_states` (§3). -/
inductive PayeeState where
  | payee_pending
  | payee_secret_revealed
  | payee_contract_unlock
  | payee_balance_proof
  | payee_expired
deriving DecidableEq, Repr

/-- Membership of a payee state in the `STATE_SECRET_KNOWN` tuple of
`mediator.py`. -/
def PayeeState.inSecretKnown : PayeeState → Bool
  | .payee_secret_revealed => true
  | .payee_contract_unlock => true
  | .payee_balance_proof => true
  | _ => false

/-- Membership of a payer state in the `STATE_SECRET_KNOWN` tuple of
`mediator.py`. -/
def PayerState.inSecretKnown : PayerState → Bool
  | .payer_secret_revealed => true
  | .payer_waiting_close => true
  | .payer_waiting_unlock => true
  | .payer_balance_proof => true
  | _ => false

/-- Membership of a payee state in the `STATE_TRANSFER_PAID` tuple of
`mediator.py`. -/
def PayeeState.inTransferPaid : PayeeState → Bool
  | .payee_contract_unlock => true
  | .payee_balance_proof => true
  | _ => false

/-- Membership of a payer state in the `STATE_TRANSFER_PAID` tuple of
`mediator.py`. -/
def PayerState.inTransferPaid : PayerState → Bool
  | .payer_balance_proof => true
  | _ => false

/-- Membership of a payee state in the `STATE_TRANSFER_FINAL` tuple of
`mediator.py`. -/
def PayeeState.inTransferFinal : PayeeState → Bool
  | .payee_contract_unlock => true
  | .payee_balance_proof => true
  | .payee_expired => true
  | _ => false

/-- Membership of a payer state in the `STATE_TRANSFER_FINAL` tuple of
`mediator.py`. -/
def PayerState.inTransferFinal : PayerState → Bool
  | .payer_balance_proof => true
  | .payer_expired => true
  | _ => false

/-- Modelled from the spec: one hop's bookkeeping, `MediationPairState`
(§3; the class body in `raiden/transfer/mediated_transfer/state.py` is
not in the source tree).  The constructor defaults the two sides to
`payer_pending`/`payee_pending`. -/
structure MediationPairState where
  payer_transfer : LockedTransferState
  payee_address : Address
  payee_transfer : LockedTransferState
  payer_state : PayerState := .payer_pending
  payee_state : PayeeState := .payee_pending
deriving DecidableEq, Repr

/-- The derived `payer_address` property of `MediationPairState`. -/
def MediationPairState.payer_address (p : MediationPairState) : Address :=
  p.payer_transfer.balance_proof.sender

/-- Modelled from the spec: `MediatorTransferState`
`{secrethash, secret: optional, transfers_pair: ordered sequence}` (§3). -/
structure MediatorTransferState where
  secrethash : SecretHash
  secret : Option Secret := none
  transfers_pair : List MediationPairState := []
deriving DecidableEq, Repr

/-- Modelled from the spec: the status of a netting channel; the
embedded code only distinguishes `CHANNEL_STATE_OPENED` from the rest. -/
inductive ChannelStatus where
  | opened
  | closed
  | settled
deriving DecidableEq, Repr

/-- Modelled from the spec: one end of a netting channel.  `known_secrets`
records the secrets registered locally on this end
(`channel.register_secret` / `channel.is_secret_known` /
`channel.get_secret`); `secrethashes_to_lockedlocks` is the locked-lock
map read by `handle_block`; `pending_transfers` models
`channel.get_number_of_pending_transfers`. -/
structure ChannelEndState where
  address : Address
  known_secrets : List (SecretHash × Secret) := []
  secrethashes_to_lockedlocks : List (SecretHash × HashTimeLockState) := []
  pending_transfers : Nat := 0
deriving DecidableEq, Repr

/-- Modelled from the spec: `NettingChannelState` together with the
outcomes of the channel-module functions the mediator calls on it.
`distributable` models `channel.get_distributable`; `valid_amount`
models `channel.is_valid_amount` ("amount is valid under channel
accounting", §4.1); `lockedtransfer_valid`, `refund_valid` and
`unlock_valid` model the validity verdicts of
`channel.handle_receive_lockedtransfer`, `channel.handle_refundtransfer`
and `channel.handle_unlock` (nonce, locksroot and amount checks, §4.1);
the channel events those three return are modelled as the empty list. -/
structure NettingChannelState where
  identifier : ChannelId
  token_address : TokenAddr
  token_network_identifier : Nat
  reveal_timeout : Nat
  settle_timeout : Nat
  status : ChannelStatus
  distributable : Nat
  valid_amount : Nat → Bool := fun _ => true
  lockedtransfer_valid : Bool := true
  refund_valid : Bool := true
  unlock_valid : Bool := true
  our_state : ChannelEndState
  partner_state : ChannelEndState

/-- The `channelidentifiers_to_channels` mapping, as an association list. -/
abbrev ChannelMap := List (ChannelId × NettingChannelState)

/-- Modelled from the spec: a route, of which the mediator reads only the
channel identifier. -/
structure RouteState where
  channel_identifier : ChannelId
deriving DecidableEq, Repr

/-- Modelled from the spec: the closed union of the side-effect
descriptions emitted by the mediator (§2, §4.1); the event classes
themselves live in files that are not in the source tree, so each
constructor carries the fields the embedded code fills in. -/
inductive Event where
  | ContractSendSecretReveal (secret : Secret) (expiration : Nat)
  | ContractSendChannelBatchUnlock
      (token_network_identifier : Nat) (channel_identifier : ChannelId)
      (secrethash : SecretHash)
  | EventUnlockClaimFailed (payment_identifier : Nat)
      (secrethash : SecretHash) (reason : String)
  | EventUnlockFailed (payment_identifier : Nat)
      (secrethash : SecretHash) (reason : String)
  | EventUnlockSuccess (payment_identifier : Nat) (secrethash : SecretHash)
  | EventUnlockClaimSuccess (payment_identifier : Nat) (secrethash : SecretHash)
  | SendRevealSecret (recipient : Address) (channel_identifier : ChannelId)
      (message_identifier : Nat) (secret : Secret)
  | SendMediatedTransfer (transfer : LockedTransferState)
      (recipient : Address) (message_identifier : Nat)
  | SendRefundTransfer (transfer : LockedTransferState)
      (recipient : Address) (message_identifier : Nat)
  | SendUnlock (recipient : Address) (payment_identifier : Nat)
      (message_identifier : Nat) (secret : Secret) (secrethash : SecretHash)
  | SendProcessed (recipient : Address) (channel_identifier : ChannelId)
      (message_identifier : Nat)
  | SendLockExpired (secrethash : SecretHash)
deriving DecidableEq, Repr

/-- The `TransitionResult` pair of `raiden/transfer/architecture.py`. -/
structure TransitionResult where
  new_state : Option MediatorTransferState
  events : List Event
deriving DecidableEq, Repr

/-- Modelled from the spec: `message_identifier_from_prng`
(`raiden/transfer/state.py`, not in the source tree).  The embedding
does not thread the generator, every draw yields the seed; no claim
mentions message identifiers. -/
def message_identifier_from_prng (prng : Nat) : Nat := prng

namespace mediator

/-- Embedding of `is_lock_valid` of `mediator.py`: true if the lock has not expired. -/
def is_lock_valid (expiration block_number : Nat) : Bool :=
  block_number ≤ expiration

/-- Embedding of `is_safe_to_wait` of `mediator.py`.  The three leading `assert`
statements become the guard (`none` = `AssertionError`); the returned
message string is dropped, only the boolean verdict is kept.  The
subtraction is over `Int` because the Python value may be negative. -/
def is_safe_to_wait (lock_expiration reveal_timeout block_number : Nat) :
    Option Bool :=
  if 0 < block_number ∧ 0 < reveal_timeout ∧ reveal_timeout < lock_expiration then
    some (decide ((reveal_timeout : Int) < (lock_expiration : Int) - (block_number : Int)))
  else
    none

/-- Embedding of `is_channel_usable` of `mediator.py`.  `lock_timeout` is an `Int`
because it is an expiration minus a block number. -/
def is_channel_usable (candidate_channel_state : NettingChannelState)
    (transfer_amount : Nat) (lock_timeout : Int) : Bool :=
  0 < lock_timeout &&
  candidate_channel_state.status == .opened &&
  lock_timeout ≤ (candidate_channel_state.settle_timeout : Int) &&
  (candidate_channel_state.reveal_timeout : Int) < lock_timeout &&
  candidate_channel_state.our_state.pending_transfers < MAXIMUM_PENDING_TRANSFERS &&
  transfer_amount ≤ candidate_channel_state.distributable &&
  candidate_channel_state.valid_amount transfer_amount

/-- Embedding of `is_send_transfer_almost_equal` of `mediator.py`.  The two
`isinstance` provenance checks are satisfied by construction in this
embedding. -/
def is_send_transfer_almost_equal (send received : LockedTransferState) : Bool :=
  send.payment_identifier == received.payment_identifier &&
  send.token == received.token &&
  send.lock.amount == received.lock.amount &&
  send.lock.expiration == received.lock.expiration &&
  send.lock.secrethash == received.lock.secrethash &&
  send.initiator == received.initiator &&
  send.target == received.target

/-- Embedding of `filter_used_routes` of `mediator.py`.  The Python dict comprehension
first deduplicates the routes by channel identifier (routes here consist
of exactly that identifier, so keeping the first occurrence equals the
dict's keep-last-value behaviour), then the loop deletes every channel
identifier appearing as payer or payee in `transfers_pair`. -/
def filter_used_routes (transfers_pair : List MediationPairState)
    (routes : List RouteState) : List RouteState :=
  let dedup := routes.foldl
    (fun acc r =>
      if acc.any (fun r2 => r2.channel_identifier == r.channel_identifier) then acc
      else acc ++ [r])
    []
  let used := transfers_pair.foldr
    (fun p acc =>
      p.payer_transfer.balance_proof.channel_identifier ::
        p.payee_transfer.balance_proof.channel_identifier :: acc)
    []
  dedup.filter (fun r => ¬ used.contains r.channel_identifier)

/-- Embedding of `get_payee_channel` of `mediator.py`; the `assert` plus dictionary
index become an association-list lookup. -/
def get_payee_channel (channelidentifiers_to_channels : ChannelMap)
    (transfer_pair : MediationPairState) : Option NettingChannelState :=
  List.lookup transfer_pair.payee_transfer.balance_proof.channel_identifier
    channelidentifiers_to_channels

/-- Embedding of `get_payer_channel` of `mediator.py`; the `assert` plus dictionary
index become an association-list lookup. -/
def get_payer_channel (channelidentifiers_to_channels : ChannelMap)
    (transfer_pair : MediationPairState) : Option NettingChannelState :=
  List.lookup transfer_pair.payer_transfer.balance_proof.channel_identifier
    channelidentifiers_to_channels

/-- Pair is still pending: `pair.payee_state not in STATE_TRANSFER_FINAL
or pair.payer_state not in STATE_TRANSFER_FINAL`. -/
def is_pending_pair (pair : MediationPairState) : Bool :=
  !pair.payee_state.inTransferFinal || !pair.payer_state.inTransferFinal

/-- Embedding of `get_pending_transfer_pairs` of `mediator.py`. -/
def get_pending_transfer_pairs (transfers_pair : List MediationPairState) :
    List MediationPairState :=
  transfers_pair.filter is_pending_pair

/-- Embedding of `sanity_check` of `mediator.py` as a boolean predicate; the Python
function is a sequence of `assert`s, `true` means none of them fires.
The two `valid_*_states` membership asserts hold for every value of the
inductive state types and are therefore omitted. -/
def sanity_check (state : MediatorTransferState) : Bool :=
  (!((state.transfers_pair.any (fun p => p.payee_state.inTransferPaid)) ||
      (state.transfers_pair.any (fun p => p.payer_state.inTransferPaid))) ||
    state.secret.isSome) &&
  (match state.transfers_pair.head? with
   | some first_pair => state.secrethash == first_pair.payer_transfer.lock.secrethash
   | none => true) &&
  state.transfers_pair.all
    (fun p => is_send_transfer_almost_equal p.payee_transfer p.payer_transfer) &&
  (state.transfers_pair.zip state.transfers_pair.tail).all
    (fun (original, refund) =>
      is_send_transfer_almost_equal original.payee_transfer refund.payer_transfer &&
      original.payee_address == refund.payer_address &&
      original.payee_transfer.lock.expiration == refund.payer_transfer.lock.expiration)

/-- Embedding of `clear_if_finalized` of `mediator.py`. -/
def clear_if_finalized (iteration : TransitionResult) : TransitionResult :=
  match iteration.new_state with
  | none => iteration
  | some state =>
    if state.transfers_pair.all
        (fun p => p.payee_state.inTransferPaid && p.payer_state.inTransferPaid) then
      ⟨none, iteration.events⟩
    else
      iteration

/-- Modelled from the spec: `channel.is_secret_known` — whether the
secret for `secrethash` has been registered locally on this channel end
(§4.2 "the payer-side partner already registered the secret locally"). -/
def is_secret_known (end_state : ChannelEndState) (secrethash : SecretHash) : Bool :=
  (List.lookup secrethash end_state.known_secrets).isSome

/-- Modelled from the spec: `channel.get_secret` — the secret registered
for `secrethash` on this channel end, if any. -/
def get_secret (end_state : ChannelEndState) (secrethash : SecretHash) : Option Secret :=
  List.lookup secrethash end_state.known_secrets

/-- Modelled from the spec: registering a secret on one channel end
records the preimage and releases the corresponding locked lock. -/
def register_secret_endstate (end_state : ChannelEndState)
    (secret : Secret) (secrethash : SecretHash) : ChannelEndState :=
  { end_state with
    known_secrets := (secrethash, secret) :: end_state.known_secrets
    secrethashes_to_lockedlocks :=
      end_state.secrethashes_to_lockedlocks.filter (fun kv => kv.1 ≠ secrethash) }

/-- Modelled from the spec: `channel.register_secret` — register the
secret on both ends of the channel (§4.1 ReceiveSecretReveal: "register
it on every pair's payer and payee channel"). -/
def register_secret (c : NettingChannelState) (secret : Secret)
    (secrethash : SecretHash) : NettingChannelState :=
  { c with
    our_state := register_secret_endstate c.our_state secret secrethash
    partner_state := register_secret_endstate c.partner_state secret secrethash }

/-- Modelled from the spec: `channel.register_onchain_secret` — same
recording as `register_secret`, with on-chain registration semantics
(§4.1); the embedding does not distinguish the two registration flavours
because no claim does. -/
def register_onchain_secret (c : NettingChannelState) (secret : Secret)
    (secrethash : SecretHash) : NettingChannelState :=
  register_secret c secret secrethash

/-- Pointwise update of one entry of the channel map (the Python code
mutates the channel object in place). -/
def chan_update (m : ChannelMap) (k : ChannelId)
    (f : NettingChannelState → NettingChannelState) : ChannelMap :=
  m.map (fun kv => if kv.1 = k then (kv.1, f kv.2) else kv)

/-- Modelled from the spec:
`secret_registry.events_for_onchain_secretreveal` — emit the on-chain
secret reveal for the pair's payer channel (§4.2 "emit
`ContractSendSecretReveal` for that pair"). -/
def secret_registry_events_for_onchain_secretreveal
    (_payer_channel : NettingChannelState) (secret : Secret)
    (expiration : Nat) : List Event :=
  [.ContractSendSecretReveal secret expiration]

/-- Embedding of `next_channel_from_routes` of `mediator.py`: the first route whose
channel exists in the map and is usable. -/
def next_channel_from_routes (available_routes : List RouteState)
    (channelidentifiers_to_channels : ChannelMap)
    (transfer_amount : Nat) (lock_timeout : Int) : Option NettingChannelState :=
  match available_routes with
  | [] => none
  | route :: rest =>
    match List.lookup route.channel_identifier channelidentifiers_to_channels with
    | none => next_channel_from_routes rest channelidentifiers_to_channels
        transfer_amount lock_timeout
    | some channel_state =>
      if is_channel_usable channel_state transfer_amount lock_timeout then
        some channel_state
      else
        next_channel_from_routes rest channelidentifiers_to_channels
          transfer_amount lock_timeout

/-- Embedding of `next_transfer_pair` of `mediator.py`.  The outer `Option` is the
exception monad for the two `assert`s on the selected payee channel;
`channel.send_lockedtransfer` (not in the source tree) is modelled from
the spec as building the payee transfer that copies the payer transfer's
payment fields onto the payee channel and emitting
`SendMediatedTransfer` on it (§4.1). -/
def next_transfer_pair (payer_transfer : LockedTransferState)
    (available_routes : List RouteState)
    (channelidentifiers_to_channels : ChannelMap)
    (pseudo_random_generator : Nat) (block_number : Nat) :
    Option (Option MediationPairState × List Event) :=
  let lock_timeout : Int :=
    (payer_transfer.lock.expiration : Int) - (block_number : Int)
  match next_channel_from_routes available_routes channelidentifiers_to_channels
      payer_transfer.lock.amount lock_timeout with
  | none => some (none, [])
  | some payee_channel =>
    if lock_timeout ≤ (payee_channel.settle_timeout : Int) ∧
        payee_channel.token_address = payer_transfer.token then
      let message_identifier := message_identifier_from_prng pseudo_random_generator
      let payee_transfer : LockedTransferState :=
        { payment_identifier := payer_transfer.payment_identifier
          token := payee_channel.token_address
          lock :=
            { amount := payer_transfer.lock.amount
              expiration := payer_transfer.lock.expiration
              secrethash := payer_transfer.lock.secrethash }
          initiator := payer_transfer.initiator
          target := payer_transfer.target
          balance_proof :=
            { channel_identifier := payee_channel.identifier
              sender := payee_channel.our_state.address } }
      some
        (some
          { payer_transfer := payer_transfer
            payee_address := payee_channel.partner_state.address
            payee_transfer := payee_transfer },
         [.SendMediatedTransfer payee_transfer payee_channel.partner_state.address
            message_identifier])
    else
      none

/-- Embedding of `set_secret` of `mediator.py`: set the secret on the mediator state
and register it on every pair's payer and payee channel.  The direct
dictionary indexing raises `KeyError` for a missing channel (`none`). -/
def set_secret_channels (secret : Secret) (secrethash : SecretHash)
    (channelidentifiers_to_channels : ChannelMap) :
    List MediationPairState → Option ChannelMap
  | [] => some channelidentifiers_to_channels
  | pair :: rest => do
    let payer_id := pair.payer_transfer.balance_proof.channel_identifier
    let _ ← List.lookup payer_id channelidentifiers_to_channels
    let map1 := chan_update channelidentifiers_to_channels payer_id
      (fun c => register_secret c secret secrethash)
    let payee_id := pair.payee_transfer.balance_proof.channel_identifier
    let _ ← List.lookup payee_id map1
    let map2 := chan_update map1 payee_id (fun c => register_secret c secret secrethash)
    set_secret_channels secret secrethash map2 rest

/-- Embedding of `set_secret` of `mediator.py` (state update plus the channel-map
threading of the in-place mutation). -/
def set_secret (state : MediatorTransferState)
    (channelidentifiers_to_channels : ChannelMap)
    (secret : Secret) (secrethash : SecretHash) :
    Option (MediatorTransferState × ChannelMap) := do
  let map' ← set_secret_channels secret secrethash channelidentifiers_to_channels
    state.transfers_pair
  pure ({ state with secret := some secret }, map')

/-- Embedding of `set_onchain_secret` of `mediator.py`; identical to `set_secret` up
to the on-chain registration flavour, which this embedding does not
distinguish. -/
def set_onchain_secret (state : MediatorTransferState)
    (channelidentifiers_to_channels : ChannelMap)
    (secret : Secret) (secrethash : SecretHash) :
    Option (MediatorTransferState × ChannelMap) :=
  set_secret state channelidentifiers_to_channels secret secrethash

/-- Inner loop of `set_payee_state_and_check_reveal_order`, walking the
reversed pair list and updating the first pair (from the back) whose
payee address matches. -/
def set_payee_rev (payee_address : Address) (new_payee_state : PayeeState) :
    List MediationPairState → List MediationPairState
  | [] => []
  | p :: rest =>
    if p.payee_address = payee_address then
      { p with payee_state := new_payee_state } :: rest
    else
      p :: set_payee_rev payee_address new_payee_state rest

/-- Embedding of `set_payee_state_and_check_reveal_order` of `mediator.py`.  Both the
wrong-order and the normal branch return the empty event list, so the
`wrong_reveal_order` bookkeeping is dropped; the membership `assert` on
`new_payee_state` holds for every value of the inductive type. -/
def set_payee_state_and_check_reveal_order
    (transfers_pair : List MediationPairState)
    (payee_address : Address) (new_payee_state : PayeeState) :
    List MediationPairState × List Event :=
  ((set_payee_rev payee_address new_payee_state transfers_pair.reverse).reverse, [])

/-- Per-pair state update of `set_expired_pairs`; both expiry conditions
are computed on the incoming pair before either side is mutated, exactly
as the source computes `has_payee_transfer_expired` and
`has_payer_transfer_expired` up front. -/
def expire_pair (block_number : Nat) (pair : MediationPairState) :
    MediationPairState :=
  if is_pending_pair pair then
    let has_payee_expired :=
      pair.payee_transfer.lock.expiration < block_number ∧
        pair.payee_state ≠ .payee_expired
    let has_payer_expired :=
      pair.payer_transfer.lock.expiration < block_number ∧
        pair.payer_state ≠ .payer_expired
    let p1 := if has_payer_expired then { pair with payer_state := .payer_expired }
      else pair
    if has_payee_expired then { p1 with payee_state := .payee_expired } else p1
  else
    pair

/-- Per-pair events of `set_expired_pairs` (payer failure first, then
payee failure, as in the source loop body). -/
def expire_pair_events (block_number : Nat) (pair : MediationPairState) :
    List Event :=
  if is_pending_pair pair then
    (if pair.payer_transfer.lock.expiration < block_number ∧
        pair.payer_state ≠ .payer_expired then
      [.EventUnlockClaimFailed pair.payer_transfer.payment_identifier
        pair.payer_transfer.lock.secrethash "lock expired"]
    else []) ++
    (if pair.payee_transfer.lock.expiration < block_number ∧
        pair.payee_state ≠ .payee_expired then
      [.EventUnlockFailed pair.payee_transfer.payment_identifier
        pair.payee_transfer.lock.secrethash "lock expired"]
    else [])
  else
    []

/-- Embedding of `set_expired_pairs` of `mediator.py`: new pair list plus failure
events.  The source iterates `get_pending_transfer_pairs` and mutates
the shared pair objects; here the update maps over the full list with
non-pending pairs untouched, which is the same transformation. -/
def set_expired_pairs (transfers_pair : List MediationPairState)
    (block_number : Nat) : List MediationPairState × List Event :=
  (transfers_pair.map (expire_pair block_number),
   (transfers_pair.map (expire_pair_events block_number)).flatten)

/-- Embedding of `events_for_refund_transfer` of `mediator.py`.
`channel.send_refundtransfer` (not in the source tree) is modelled from
the spec as emitting `SendRefundTransfer` carrying the refunded transfer
data on the refund channel. -/
def events_for_refund_transfer (refund_channel : NettingChannelState)
    (transfer_to_refund : LockedTransferState)
    (pseudo_random_generator : Nat) (block_number : Nat) : List Event :=
  let lock_timeout : Int :=
    (transfer_to_refund.lock.expiration : Int) - (block_number : Int)
  let transfer_amount := transfer_to_refund.lock.amount
  if is_channel_usable refund_channel transfer_amount lock_timeout then
    let message_identifier := message_identifier_from_prng pseudo_random_generator
    let refund_transfer : LockedTransferState :=
      { payment_identifier := transfer_to_refund.payment_identifier
        token := refund_channel.token_address
        lock :=
          { amount := transfer_to_refund.lock.amount
            expiration := transfer_to_refund.lock.expiration
            secrethash := transfer_to_refund.lock.secrethash }
        initiator := transfer_to_refund.initiator
        target := transfer_to_refund.target
        balance_proof :=
          { channel_identifier := refund_channel.identifier
            sender := refund_channel.our_state.address } }
    [.SendRefundTransfer refund_transfer refund_channel.partner_state.address
      message_identifier]
  else
    []

/-- Reveal-backwards condition of the `events_for_revealsecret` loop. -/
def revealsecret_cond (pair : MediationPairState) : Bool :=
  pair.payee_state.inSecretKnown &&
  !pair.payer_state.inSecretKnown &&
  pair.payer_state == .payer_pending

/-- Embedding of `events_for_revealsecret` of `mediator.py`.  The source iterates the
reversed pair list mutating `payer_state` of each qualifying pair; the
per-pair condition never reads another pair, so the update is a map and
the events are collected along the reversed order. -/
def events_for_revealsecret (transfers_pair : List MediationPairState)
    (secret : Secret) (pseudo_random_generator : Nat) :
    List MediationPairState × List Event :=
  (transfers_pair.map
    (fun p => if revealsecret_cond p then { p with payer_state := .payer_secret_revealed }
      else p),
   (transfers_pair.reverse.filter revealsecret_cond).map
    (fun p =>
      .SendRevealSecret p.payer_transfer.balance_proof.sender
        CHANNEL_IDENTIFIER_GLOBAL_QUEUE
        (message_identifier_from_prng pseudo_random_generator) secret))

/-- Sequencing helper: run a fallible per-pair update over a pair list,
collecting the updated pairs and the concatenated events. -/
def collect_pairs
    (f : MediationPairState → Option (MediationPairState × List Event)) :
    List MediationPairState → Option (List MediationPairState × List Event)
  | [] => some ([], [])
  | p :: rest => do
    let (p', ev) ← f p
    let (rest', evs) ← collect_pairs f rest
    pure (p' :: rest', ev ++ evs)

/-- One iteration of the `events_for_balanceproof` loop: fetch both
channels (their `assert`ing getters may raise), run `is_safe_to_wait`
(its `assert`s may raise), and if the payee may be paid off-chain emit
`SendUnlock` (the modelled `channel.send_unlock`) plus
`EventUnlockSuccess` and advance the payee state. -/
def balanceproof_step (channelidentifiers_to_channels : ChannelMap)
    (pseudo_random_generator : Nat) (block_number : Nat)
    (secret : Secret) (secrethash : SecretHash)
    (pair : MediationPairState) : Option (MediationPairState × List Event) := do
  let payee_channel ← get_payee_channel channelidentifiers_to_channels pair
  let payer_channel ← get_payer_channel channelidentifiers_to_channels pair
  let is_safe_to_send_balanceproof ← is_safe_to_wait
    pair.payer_transfer.lock.expiration payer_channel.reveal_timeout block_number
  let should_send :=
    (payee_channel.status == .opened) &&
    pair.payee_state.inSecretKnown &&
    !pair.payee_state.inTransferPaid &&
    is_safe_to_send_balanceproof
  if should_send then
    pure ({ pair with payee_state := .payee_balance_proof },
      [.SendUnlock payee_channel.partner_state.address
          pair.payee_transfer.payment_identifier
          (message_identifier_from_prng pseudo_random_generator) secret secrethash,
        .EventUnlockSuccess pair.payer_transfer.payment_identifier
          pair.payer_transfer.lock.secrethash])
  else
    pure (pair, [])

/-- Embedding of `events_for_balanceproof` of `mediator.py`: the loop walks the
reversed pair list; events are collected in that order and the updated
pairs are put back in the original order. -/
def events_for_balanceproof (channelidentifiers_to_channels : ChannelMap)
    (transfers_pair : List MediationPairState)
    (pseudo_random_generator : Nat) (block_number : Nat)
    (secret : Secret) (secrethash : SecretHash) :
    Option (List MediationPairState × List Event) := do
  let (rev_pairs, events) ← collect_pairs
    (balanceproof_step channelidentifiers_to_channels pseudo_random_generator
      block_number secret secrethash)
    transfers_pair.reverse
  pure (rev_pairs.reverse, events)

/-- Inner loop of `events_for_onchain_secretreveal`, over the reversed
pending pairs: stop at the first pair that is unsafe to wait with the
secret registered on the payer channel's partner, returning its reveal
events; the `assert`ing channel getter and `is_safe_to_wait` may raise. -/
def onchain_secretreveal_go (channelidentifiers_to_channels : ChannelMap)
    (block_number : Nat) : List MediationPairState → Option (List Event)
  | [] => some []
  | pair :: rest =>
    match get_payer_channel channelidentifiers_to_channels pair with
    | none => none
    | some payer_channel =>
      match is_safe_to_wait pair.payer_transfer.lock.expiration
          payer_channel.reveal_timeout block_number with
      | none => none
      | some safe_to_wait =>
        if !safe_to_wait && is_secret_known payer_channel.partner_state
            pair.payer_transfer.lock.secrethash then
          match get_secret payer_channel.partner_state
              pair.payer_transfer.lock.secrethash with
          | some secret =>
            some (secret_registry_events_for_onchain_secretreveal payer_channel
              secret pair.payer_transfer.lock.expiration)
          | none => none
        else
          onchain_secretreveal_go channelidentifiers_to_channels block_number rest

/-- Embedding of `events_for_onchain_secretreveal` of `mediator.py`. -/
def events_for_onchain_secretreveal (channelidentifiers_to_channels : ChannelMap)
    (transfers_pair : List MediationPairState) (block_number : Nat) :
    Option (List Event) :=
  onchain_secretreveal_go channelidentifiers_to_channels block_number
    (get_pending_transfer_pairs transfers_pair).reverse

/-- One iteration of the `events_for_unlock_if_closed` loop (the source
iterates only the pending pairs, mutating them in the shared list; here
non-pending pairs pass through untouched).  `channel.get_lock` and
`channel.compute_proof_for_lock` (not in the source tree) are modelled
from the spec as producing the unlock proof that
`ContractSendChannelBatchUnlock` carries, represented by the secrethash. -/
def unlock_if_closed_step (channelidentifiers_to_channels : ChannelMap)
    (secrethash : SecretHash) (pair : MediationPairState) :
    Option (MediationPairState × List Event) :=
  if is_pending_pair pair then do
    let payer_channel ← get_payer_channel channelidentifiers_to_channels pair
    if payer_channel.status == .opened then
      pure (pair, [])
    else
      pure ({ pair with payer_state := .payer_waiting_unlock },
        [.ContractSendChannelBatchUnlock payer_channel.token_network_identifier
          payer_channel.identifier secrethash])
  else
    pure (pair, [])

/-- Embedding of `events_for_unlock_if_closed` of `mediator.py`. -/
def events_for_unlock_if_closed (channelidentifiers_to_channels : ChannelMap)
    (transfers_pair : List MediationPairState)
    (_secret : Secret) (secrethash : SecretHash) :
    Option (List MediationPairState × List Event) :=
  collect_pairs (unlock_if_closed_step channelidentifiers_to_channels secrethash)
    transfers_pair

/-- Embedding of `secret_learned` of `mediator.py`.  The channel map is threaded
through the in-place mutations of `set_secret`; the result events are
`wrong_order ++ secret_reveal ++ balance_proof ++ unlock` with
`wrong_order` always empty. -/
def secret_learned (state : MediatorTransferState)
    (channelidentifiers_to_channels : ChannelMap)
    (pseudo_random_generator : Nat) (block_number : Nat)
    (secret : Secret) (secrethash : SecretHash)
    (payee_address : Address) (new_payee_state : PayeeState)
    (from_onchain_secretreveal : Bool) :
    Option (MediatorTransferState × ChannelMap × List Event) := do
  if !new_payee_state.inSecretKnown then
    none
  else
    let (state1, map1, unlock) ←
      if state.secret = none then do
        let (st, mp) ←
          if from_onchain_secretreveal then
            set_onchain_secret state channelidentifiers_to_channels secret secrethash
          else
            set_secret state channelidentifiers_to_channels secret secrethash
        let (pairs1, unlock_events) ← events_for_unlock_if_closed mp
          st.transfers_pair secret secrethash
        pure (({ st with transfers_pair := pairs1 }, mp, unlock_events) :
          MediatorTransferState × ChannelMap × List Event)
      else
        pure (state, channelidentifiers_to_channels, [])
    let (pairs2, wrong_order) := set_payee_state_and_check_reveal_order
      state1.transfers_pair payee_address new_payee_state
    let (pairs3, secret_reveal) := events_for_revealsecret pairs2 secret
      pseudo_random_generator
    let (pairs4, balance_proof) ← events_for_balanceproof map1 pairs3
      pseudo_random_generator block_number secret secrethash
    pure ({ state1 with transfers_pair := pairs4 }, map1,
      wrong_order ++ secret_reveal ++ balance_proof ++ unlock)

/-- Embedding of `mediate_transfer` of `mediator.py`.  The `assert` tying the payer
channel's partner to the transfer sender may raise; picking the refund
channel of the first pair goes through the `assert`ing
`get_payer_channel`.  The returned state is the (possibly extended)
input state. -/
def mediate_transfer (state : MediatorTransferState)
    (possible_routes : List RouteState)
    (payer_channel : NettingChannelState)
    (channelidentifiers_to_channels : ChannelMap)
    (pseudo_random_generator : Nat)
    (payer_transfer : LockedTransferState)
    (block_number : Nat) :
    Option (MediatorTransferState × List Event) :=
  let available_routes := filter_used_routes state.transfers_pair possible_routes
  if payer_channel.partner_state.address ≠ payer_transfer.balance_proof.sender then
    none
  else
    match next_transfer_pair payer_transfer available_routes
        channelidentifiers_to_channels pseudo_random_generator block_number with
    | none => none
    | some (some pair, mediated_events) =>
      some ({ state with transfers_pair := state.transfers_pair ++ [pair] },
        mediated_events)
    | some (none, _) =>
      let original? : Option (NettingChannelState × LockedTransferState) :=
        match state.transfers_pair with
        | [] => some (payer_channel, payer_transfer)
        | original_pair :: _ =>
          (get_payer_channel channelidentifiers_to_channels original_pair).map
            (fun c => (c, original_pair.payer_transfer))
      match original? with
      | none => none
      | some original =>
        some (state, events_for_refund_transfer original.1 original.2
          pseudo_random_generator block_number)

end mediator

/-- Embedding of `ActionInitMediator` of
`raiden/transfer/mediated_transfer/state_change.py`. -/
structure ActionInitMediator where
  our_address : Address
  from_transfer : LockedTransferState
  routes : List RouteState
  from_route : RouteState
  block_number : Nat
deriving DecidableEq, Repr

/-- Modelled from the spec: the `Block` state change of
`raiden/transfer/state_change.py` (not in the source tree), carrying the
new block number. -/
structure Block where
  block_number : Nat
deriving DecidableEq, Repr

/-- Modelled from the spec: `ReceiveTransferRefund` as consumed by
`mediator.py` (`.transfer` and `.routes`); the copy of
`state_change.py` in the source tree is an older revision without these
fields. -/
structure ReceiveTransferRefund where
  transfer : LockedTransferState
  routes : List RouteState
deriving DecidableEq, Repr

/-- Modelled from the spec: `ReceiveSecretReveal` as consumed by
`mediator.py` (`.secrethash`, `.secret`, `.sender`); the copy of
`state_change.py` in the source tree is an older revision without the
secrethash field. -/
structure ReceiveSecretReveal where
  secret : Secret
  secrethash : SecretHash
  sender : Address
deriving DecidableEq, Repr

/-- Modelled from the spec: `ContractReceiveSecretReveal` of
`raiden/transfer/state_change.py` (not in the source tree), as consumed
by `mediator.py`. -/
structure ContractReceiveSecretReveal where
  secret : Secret
  secrethash : SecretHash
  sender : Address
deriving DecidableEq, Repr

/-- Modelled from the spec: `ReceiveUnlock` of
`raiden/transfer/state_change.py` (not in the source tree); the mediator
reads its balance proof and message identifier. -/
structure ReceiveUnlock where
  balance_proof : BalanceProofState
  message_identifier : Nat
deriving DecidableEq, Repr

/-- Modelled from the spec: `ReceiveLockExpired` of
`raiden/transfer/mediated_transfer/state_change.py` (missing from the
older revision in the source tree); the mediator reads its route. -/
structure ReceiveLockExpired where
  from_route : RouteState
deriving DecidableEq, Repr

/-- The closed union of the state changes `state_transition` dispatches
on (§2). -/
inductive StateChange where
  | init (sc : ActionInitMediator)
  | block (sc : Block)
  | refund (sc : ReceiveTransferRefund)
  | secretReveal (sc : ReceiveSecretReveal)
  | contractSecretReveal (sc : ContractReceiveSecretReveal)
  | unlock (sc : ReceiveUnlock)
  | lockExpired (sc : ReceiveLockExpired)
deriving DecidableEq, Repr

namespace mediator

/-- Embedding of `handle_init` of `mediator.py`.  The channel-validation call
`channel.handle_receive_lockedtransfer` is modelled by the channel's
`lockedtransfer_valid` verdict with empty channel events. -/
def handle_init (state_change : ActionInitMediator)
    (channelidentifiers_to_channels : ChannelMap)
    (pseudo_random_generator : Nat) (block_number : Nat) :
    Option TransitionResult :=
  match List.lookup state_change.from_route.channel_identifier
      channelidentifiers_to_channels with
  | none => some ⟨none, []⟩
  | some payer_channel =>
    let mediator_state : MediatorTransferState :=
      { secrethash := state_change.from_transfer.lock.secrethash }
    if payer_channel.lockedtransfer_valid then
      (mediate_transfer mediator_state state_change.routes payer_channel
        channelidentifiers_to_channels pseudo_random_generator
        state_change.from_transfer block_number).map
        (fun (st, evs) => ⟨some st, evs⟩)
    else
      some ⟨none, []⟩

/-- Embedding of `handle_block` of `mediator.py`.  Reading `transfers_pair[0]` of an
empty list and dereferencing a missing payee channel raise (`none`);
`channel.delete_secrethash_endstate` only mutates the channel map, which
the transition result does not carry, and
`channel.events_for_expired_lock` is modelled from the spec as the
single lock-expiry event. -/
def handle_block (mediator_state : MediatorTransferState)
    (state_change : Block)
    (channelidentifiers_to_channels : ChannelMap)
    (_pseudo_random_generator : Nat) (block_number : Nat) :
    Option TransitionResult :=
  match mediator_state.transfers_pair.head? with
  | none => none
  | some first_pair =>
    match List.lookup first_pair.payee_transfer.balance_proof.channel_identifier
        channelidentifiers_to_channels with
    | none => none
    | some channel_state =>
      let secrethash := mediator_state.secrethash
      let locked_lock? := List.lookup secrethash
        channel_state.our_state.secrethashes_to_lockedlocks
      let expired_cleanup : Bool :=
        match locked_lock? with
        | some locked_lock =>
          decide (locked_lock.expiration + DEFAULT_NUMBER_OF_CONFIRMATIONS_BLOCK <
            state_change.block_number)
        | none => false
      if expired_cleanup then
        some ⟨none, [.SendLockExpired secrethash]⟩
      else
        match events_for_onchain_secretreveal channelidentifiers_to_channels
            mediator_state.transfers_pair block_number with
        | none => none
        | some secret_reveal_events =>
          some ⟨some { mediator_state with transfers_pair :=
              (set_expired_pairs mediator_state.transfers_pair block_number).1 },
            (set_expired_pairs mediator_state.transfers_pair block_number).2 ++
              secret_reveal_events⟩

/-- Embedding of `handle_refundtransfer` of `mediator.py`.  Actionable only while the
secret is unknown; `transfers_pair[-1]` of an empty list and the direct
channel-map index raise (`none`); `channel.handle_refundtransfer` is
modelled by the channel's `refund_valid` verdict with empty channel
events. -/
def handle_refundtransfer (mediator_state : MediatorTransferState)
    (mediator_state_change : ReceiveTransferRefund)
    (channelidentifiers_to_channels : ChannelMap)
    (pseudo_random_generator : Nat) (block_number : Nat) :
    Option TransitionResult :=
  if mediator_state.secret = none then
    match mediator_state.transfers_pair.getLast? with
    | none => none
    | some _transfer_pair =>
      let payer_transfer := mediator_state_change.transfer
      match List.lookup payer_transfer.balance_proof.channel_identifier
          channelidentifiers_to_channels with
      | none => none
      | some payer_channel =>
        if payer_channel.refund_valid then
          (mediate_transfer mediator_state mediator_state_change.routes
            payer_channel channelidentifiers_to_channels pseudo_random_generator
            payer_transfer block_number).map
            (fun (st, evs) => ⟨some st, evs⟩)
        else
          some ⟨none, []⟩
  else
    some ⟨some mediator_state, []⟩

/-- Embedding of `handle_secretreveal` of `mediator.py`, shared by the off-chain and
the on-chain reveal state changes (`from_onchain_secretreveal` is the
`isinstance(…, ContractReceiveSecretReveal)` test of the caller). -/
def handle_secretreveal (mediator_state : MediatorTransferState)
    (secret : Secret) (secrethash : SecretHash) (sender : Address)
    (channelidentifiers_to_channels : ChannelMap)
    (pseudo_random_generator : Nat) (block_number : Nat)
    (from_onchain_secretreveal : Bool) :
    Option TransitionResult :=
  if mediator_state.secret = none ∧ secrethash = mediator_state.secrethash then
    (secret_learned mediator_state channelidentifiers_to_channels
      pseudo_random_generator block_number secret secrethash sender
      .payee_secret_revealed from_onchain_secretreveal).map
      (fun (st, _, evs) => ⟨some st, evs⟩)
  else
    some ⟨some mediator_state, []⟩

/-- Per-pair update of `handle_unlock`: a pair whose payer transfer was
sent by the unlock's sender gains the claim-success events and moves to
`payer_balance_proof` when the channel exists and validates the unlock
(`channel.handle_unlock` is modelled by the channel's `unlock_valid`
verdict with empty channel events). -/
def handle_unlock_step (state_change : ReceiveUnlock)
    (channelidentifiers_to_channels : ChannelMap)
    (pair : MediationPairState) : MediationPairState × List Event :=
  if pair.payer_transfer.balance_proof.sender = state_change.balance_proof.sender then
    match List.lookup state_change.balance_proof.channel_identifier
        channelidentifiers_to_channels with
    | none => (pair, [])
    | some channel_state =>
      if channel_state.unlock_valid then
        ({ pair with payer_state := .payer_balance_proof },
          [.EventUnlockClaimSuccess pair.payee_transfer.payment_identifier
              pair.payee_transfer.lock.secrethash,
            .SendProcessed state_change.balance_proof.sender
              CHANNEL_IDENTIFIER_GLOBAL_QUEUE state_change.message_identifier])
      else
        (pair, [])
  else
    (pair, [])

/-- Embedding of `handle_unlock` of `mediator.py`. -/
def handle_unlock (mediator_state : MediatorTransferState)
    (state_change : ReceiveUnlock)
    (channelidentifiers_to_channels : ChannelMap) : TransitionResult :=
  let stepped := mediator_state.transfers_pair.map
    (handle_unlock_step state_change channelidentifiers_to_channels)
  ⟨some { mediator_state with transfers_pair := stepped.map Prod.fst },
    (stepped.map Prod.snd).flatten⟩

/-- Embedding of `handle_lock_expired` of `mediator.py`.
`channel.handle_receive_lock_expired` (not in the source tree) is
modelled from the spec as delegating to the channel and returning its
events (modelled empty); it dereferences the looked-up channel, so a
missing channel raises (`none`). -/
def handle_lock_expired (_mediator_state : MediatorTransferState)
    (state_change : ReceiveLockExpired)
    (channelidentifiers_to_channels : ChannelMap) : Option TransitionResult :=
  match List.lookup state_change.from_route.channel_identifier
      channelidentifiers_to_channels with
  | none => none
  | some _channel_state => some ⟨none, []⟩

/-- Dispatch section of `state_transition` of `mediator.py` (the
`isinstance` chain).  Dispatching a state change other than
`ActionInitMediator` against a null mediator state dereferences `None`
inside the handler (`none`), except for `ReceiveLockExpired` whose
handler never reads the state. -/
def transition_dispatch (mediator_state : Option MediatorTransferState)
    (state_change : StateChange)
    (channelidentifiers_to_channels : ChannelMap)
    (pseudo_random_generator : Nat) (block_number : Nat) :
    Option TransitionResult :=
  match state_change, mediator_state with
    | .init sc, none =>
      handle_init sc channelidentifiers_to_channels pseudo_random_generator
        block_number
    | .init _, some st => some ⟨some st, []⟩
    | .block sc, some st =>
      handle_block st sc channelidentifiers_to_channels pseudo_random_generator
        block_number
    | .block _, none => none
    | .refund sc, some st =>
      handle_refundtransfer st sc channelidentifiers_to_channels
        pseudo_random_generator block_number
    | .refund _, none => none
    | .secretReveal sc, some st =>
      handle_secretreveal st sc.secret sc.secrethash sc.sender
        channelidentifiers_to_channels pseudo_random_generator block_number false
    | .secretReveal _, none => none
    | .contractSecretReveal sc, some st =>
      handle_secretreveal st sc.secret sc.secrethash sc.sender
        channelidentifiers_to_channels pseudo_random_generator block_number true
    | .contractSecretReveal _, none => none
    | .unlock sc, some st =>
      some (handle_unlock st sc channelidentifiers_to_channels)
    | .unlock _, none => none
    | .lockExpired sc, some st =>
      handle_lock_expired st sc channelidentifiers_to_channels
    | .lockExpired sc, none =>
      handle_lock_expired { secrethash := 0 } sc channelidentifiers_to_channels

/-- Embedding of `state_transition` of `mediator.py`: dispatch on the state change,
then run `sanity_check` on every non-null new state (a failing check is
a raised `AssertionError`, hence `none`), then `clear_if_finalized`. -/
def state_transition (mediator_state : Option MediatorTransferState)
    (state_change : StateChange)
    (channelidentifiers_to_channels : ChannelMap)
    (pseudo_random_generator : Nat) (block_number : Nat) :
    Option TransitionResult :=
  match transition_dispatch mediator_state state_change
      channelidentifiers_to_channels pseudo_random_generator block_number with
  | none => none
  | some iteration =>
    match iteration.new_state with
    | some st =>
      if sanity_check st then
        some (clear_if_finalized iteration)
      else
        none
    | none => some (clear_if_finalized iteration)

end mediator

namespace protocol

/-- Modelled from the spec: `UDP_MAX_MESSAGE_SIZE` (§6: 1200 bytes;
`raiden/constants.py` is not in the source tree). -/
def UDP_MAX_MESSAGE_SIZE : Nat := 1200

abbrev HostPort := Nat

/-- Modelled from the spec: `echohash = H(encoded_message ∥ address)`
(§4.3); the hash is treated as an injective fingerprint, represented by
the pair it fingerprints. -/
abbrev EchoHash := List Nat × Address

/-- Modelled from the spec: the fingerprint function `sha3(data + address)`. -/
def sha3cat (data : List Nat) (address : Address) : EchoHash :=
  (data, address)

/-- Modelled from the spec: the decoded view of a datagram (§6).  `Ping`
subclasses `SignedMessage` in the codec, so the receive pipeline treats
it as an application message. -/
inductive Msg where
  | ackMsg (sender : Address) (echo : EchoHash)
  | pingMsg (nonce : Nat) (sender : Address)
  | signedMsg (sender : Address) (token : TokenAddr) (payload : Nat)
deriving DecidableEq, Repr

/-- Modelled from the spec: the opaque wire codec (§6); any injective
byte encoding works, the claims never inspect the bytes. -/
def Msg.encode : Msg → List Nat
  | .ackMsg sender echo => 0 :: sender :: echo.2 :: echo.1
  | .pingMsg nonce sender => [1, nonce, sender]
  | .signedMsg sender token payload => [2, sender, token, payload]

/-- Modelled from the spec: `decode` of the message codec, the partial
inverse of `Msg.encode` (`none` is a datagram the codec rejects). -/
def decode : List Nat → Option Msg
  | 0 :: sender :: a :: rest => some (.ackMsg sender (rest, a))
  | [1, nonce, sender] => some (.pingMsg nonce sender)
  | [2, sender, token, payload] => some (.signedMsg sender token payload)
  | _ => none

/-- The `message.sender` field. -/
def Msg.sender : Msg → Address
  | .ackMsg s _ => s
  | .pingMsg _ s => s
  | .signedMsg s _ _ => s

/-- The `getattr(message, 'token', '')` read of `send_async`; messages
without a token yield the modelled default. -/
def Msg.tokenOf : Msg → TokenAddr
  | .signedMsg _ token _ => token
  | _ => 0

/-- Outcome of the host's `on_message` callback (§4.3): success, one of
the six enumerated business exceptions (swallowed, no ack), or any other
exception (propagates). -/
inductive OnMessageResult where
  | ok
  | businessError
  | fatal
deriving DecidableEq, Repr

/-- Observable side effects of the receive pipeline: datagram
transmissions and host-handler invocations. -/
inductive NetOp where
  | transport_send (host_port : HostPort) (data : List Nat)
  | on_message (message : Msg) (echohash : EchoHash)
deriving DecidableEq, Repr

/-- Embedding of `SentMessageState` of `protocol.py`; the `AsyncResult` object is
represented by its allocation number, so object identity is number
equality. -/
structure SentMessageState where
  async_result : Nat
  receiver_address : Address
deriving DecidableEq, Repr

/-- The mutable state of a `RaidenProtocol` instance.  `discovery`
models the TTL-cached `discovery.get` capability; `server_started`
models `transport.server.started`; `future_values` carries the
resolution state of every allocated `AsyncResult` (`none` = unset);
`next_future_id` numbers allocations.  Greenlet spawning
(health checks, queue consumers) has no effect on these fields and is
not modelled. -/
structure ProtocolState where
  our_address : Address
  discovery : Address → HostPort
  server_started : Bool
  senthashes_to_states : List (EchoHash × SentMessageState) := []
  receivedhashes_to_acks : List (EchoHash × (HostPort × List Nat)) := []
  channel_queue : List ((Address × TokenAddr) × List (List Nat)) := []
  next_future_id : Nat := 0
  future_values : List (Nat × Option Bool) := []

/-- Dictionary assignment on the received-ack cache. -/
def acks_set (m : List (EchoHash × (HostPort × List Nat)))
    (k : EchoHash) (v : HostPort × List Nat) :
    List (EchoHash × (HostPort × List Nat)) :=
  if (List.lookup k m).isSome then
    m.map (fun kv => if kv.1 = k then (k, v) else kv)
  else
    m ++ [(k, v)]

/-- Resolution of an `AsyncResult` (`async_result.set(b)`). -/
def set_future (vals : List (Nat × Option Bool)) (fid : Nat) (b : Bool) :
    List (Nat × Option Bool) :=
  vals.map (fun kv => if kv.1 = fid then (kv.1, some b) else kv)

/-- Embedding of `get_channel_queue` plus `queue.put` of `send_async`: fetch or
create the per-(destination, token) queue and append the message data
(the greenlets `get_channel_queue` spawns are not modelled). -/
def queue_put (st : ProtocolState) (key : Address × TokenAddr)
    (data : List Nat) : ProtocolState :=
  if (List.lookup key st.channel_queue).isSome then
    let updated := st.channel_queue.map
      (fun kv => if kv.1 = key then (kv.1, kv.2 ++ [data]) else kv)
    { st with channel_queue := updated }
  else
    { st with channel_queue := st.channel_queue ++ [(key, [data])] }

/-- Embedding of `RaidenProtocol.send_async`.  The two `ValueError`s (Ack/Ping
message, oversize payload) raise (`none`); the address validity check is
modelled as always passing since addresses are opaque.  On a fresh
echohash a new `AsyncResult` is allocated, recorded in
`senthashes_to_states` and the data is enqueued; on a known echohash the
stored `AsyncResult` is returned and nothing else happens. -/
def send_async (st : ProtocolState) (receiver_address : Address)
    (message : Msg) : Option (ProtocolState × Nat) :=
  match message with
  | .ackMsg _ _ => none
  | .pingMsg _ _ => none
  | _ =>
    let messagedata := message.encode
    let echohash := sha3cat messagedata receiver_address
    if UDP_MAX_MESSAGE_SIZE < messagedata.length then
      none
    else
      let token_address := message.tokenOf
      match List.lookup echohash st.senthashes_to_states with
      | none =>
        let async_result := st.next_future_id
        let st1 : ProtocolState :=
          { st with
            next_future_id := st.next_future_id + 1
            future_values := st.future_values ++ [(async_result, none)]
            senthashes_to_states := st.senthashes_to_states ++
              [(echohash, ⟨async_result, receiver_address⟩)] }
        let st2 := queue_put st1 (receiver_address, token_address) messagedata
        some (st2, async_result)
      | some waitack => some (st, waitack.async_result)

/-- Embedding of `RaidenProtocol._maybe_send_ack`: transmit only while the transport
server runs (acks never enter the send queue). -/
def maybe_send_ack_raw (st : ProtocolState) (host_port : HostPort)
    (messagedata : List Nat) : List NetOp :=
  if st.server_started then [.transport_send host_port messagedata] else []

/-- Embedding of `RaidenProtocol.receive`.  Oversize datagrams are dropped with a
log; a cached echohash re-emits the cached ack after refreshing its
endpoint from discovery; an `Ack` resolves the matching outbound future;
any other decoded message goes to the host handler, and on success the
ack is built, cached under the same echohash and transmitted.  A fatal
handler outcome propagates (`none`), as does the `message.sender`
dereference when an undecodable datagram hits the ack cache. -/
def receive (handler : Msg → EchoHash → OnMessageResult)
    (st : ProtocolState) (data : List Nat) :
    Option (ProtocolState × List NetOp) :=
  if UDP_MAX_MESSAGE_SIZE < data.length then
    some (st, [])
  else
    let message? := decode data
    let echohash := sha3cat data st.our_address
    match List.lookup echohash st.receivedhashes_to_acks with
    | some (host_port, messagedata) =>
      match message? with
      | none => none
      | some message =>
        let current_host_port := st.discovery message.sender
        let refreshed := acks_set st.receivedhashes_to_acks echohash
          (current_host_port, messagedata)
        let st' :=
          if host_port ≠ current_host_port then
            { st with receivedhashes_to_acks := refreshed }
          else
            st
        some (st', maybe_send_ack_raw st' current_host_port messagedata)
    | none =>
      match message? with
      | none => some (st, [])
      | some (.ackMsg _ echo) =>
        match List.lookup echo st.senthashes_to_states with
        | none => some (st, [])
        | some waitack =>
          let resolved := set_future st.future_values waitack.async_result true
          some ({ st with future_values := resolved }, [])
      | some message =>
        match handler message echohash with
        | .fatal => none
        | .businessError => some (st, [.on_message message echohash])
        | .ok =>
          let ack := Msg.ackMsg st.our_address echohash
          let messagedata := ack.encode
          let host_port := st.discovery message.sender
          let cached := acks_set st.receivedhashes_to_acks echohash
            (host_port, messagedata)
          let st' := { st with receivedhashes_to_acks := cached }
          some (st', [.on_message message echohash] ++
            maybe_send_ack_raw st' host_port messagedata)

end protocol

/-! ### Generic association-list lemmas -/

theorem lookup_append_right {α β : Type} [BEq α] (k : α) (l1 l2 : List (α × β))
    (h : List.lookup k l1 = none) :
    List.lookup k (l1 ++ l2) = List.lookup k l2 := by
  induction l1 with
  | nil => simp
  | cons kv rest ih =>
    obtain ⟨a, b⟩ := kv
    by_cases hk : (k == a) = true
    · simp [List.lookup, hk] at h
    · simp only [Bool.not_eq_true] at hk
      simp only [List.cons_append, List.lookup, hk] at h ⊢
      exact ih h

theorem lookup_append_self {α β : Type} [BEq α] [LawfulBEq α] (k : α)
    (l : List (α × β)) (v : β) (h : List.lookup k l = none) :
    List.lookup k (l ++ [(k, v)]) = some v := by
  rw [lookup_append_right k l [(k, v)] h]
  simp [List.lookup_cons]

/-! ### Concrete fixtures used by witnesses and counterexamples -/

namespace fixtures

/-- Upstream (payer) channel end held by the transfer sender, with the
secret 77 for secrethash 42 already registered locally. -/
def payerPartner : ChannelEndState := { address := 100, known_secrets := [(42, 77)] }

def payerChan : NettingChannelState :=
  { identifier := 1, token_address := 5, token_network_identifier := 50,
    reveal_timeout := 10, settle_timeout := 40, status := .opened,
    distributable := 100, our_state := { address := 999 },
    partner_state := payerPartner }

def payeeChan : NettingChannelState :=
  { identifier := 2, token_address := 5, token_network_identifier := 50,
    reveal_timeout := 10, settle_timeout := 40, status := .opened,
    distributable := 100, our_state := { address := 999 },
    partner_state := { address := 200 } }

def payerT : LockedTransferState :=
  { payment_identifier := 7, token := 5,
    lock := { amount := 10, expiration := 100, secrethash := 42 },
    initiator := 100, target := 300,
    balance_proof := { channel_identifier := 1, sender := 100 } }

def payeeT : LockedTransferState :=
  { payment_identifier := 7, token := 5,
    lock := { amount := 10, expiration := 100, secrethash := 42 },
    initiator := 100, target := 300,
    balance_proof := { channel_identifier := 2, sender := 999 } }

def pair0 : MediationPairState :=
  { payer_transfer := payerT, payee_address := 200, payee_transfer := payeeT }

def chanMap : ChannelMap := [(1, payerChan), (2, payeeChan)]

def mState : MediatorTransferState :=
  { secrethash := 42, transfers_pair := [pair0] }

/-- State whose single pair has been paid on the payee side, with the
secret recorded. -/
def mStatePaid : MediatorTransferState :=
  { secrethash := 42, secret := some 77,
    transfers_pair := [{ pair0 with payee_state := .payee_balance_proof }] }

/-- Payee channel whose our-side locked-lock table still carries the
mediated lock, as `handle_block`'s cleanup branch reads it. -/
def payeeChanLL : NettingChannelState :=
  { payeeChan with our_state :=
      { address := 999,
        secrethashes_to_lockedlocks :=
          [(42, { amount := 10, expiration := 100, secrethash := 42 })] } }

def chanMapLL : ChannelMap := [(1, payerChan), (2, payeeChanLL)]

/-- Payer channel with a zero reveal timeout: `is_safe_to_wait`'s second
assert fires on it. -/
def payerChanZero : NettingChannelState := { payerChan with reveal_timeout := 0 }

def chanMapZero : ChannelMap := [(1, payerChanZero), (2, payeeChan)]

/-- Closed variants, unusable for mediation and refunds alike. -/
def closedPayerChan : NettingChannelState := { payerChan with status := .closed }

def closedPayeeChan : NettingChannelState := { payeeChan with status := .closed }

def chanMapClosed : ChannelMap := [(1, closedPayerChan), (2, closedPayeeChan)]

/-- Fresh mediator state, before any pair was recorded. -/
def freshState : MediatorTransferState := { secrethash := 42 }

end fixtures

namespace mediator

/-! ### Shared lemmas about the transition plumbing -/

theorem clear_if_finalized_new_state (it : TransitionResult)
    (s : MediatorTransferState) (h : (clear_if_finalized it).new_state = some s) :
    it.new_state = some s := by
  unfold clear_if_finalized at h
  split at h
  · exact h
  · split at h
    · simp at h
    · exact h

theorem sanity_check_paid (s : MediatorTransferState) (h : sanity_check s = true)
    (hp : ∃ p ∈ s.transfers_pair,
      p.payee_state.inTransferPaid = true ∨ p.payer_state.inTransferPaid = true) :
    s.secret ≠ none := by
  intro hn
  unfold sanity_check at h
  rw [hn] at h
  simp only [Bool.and_eq_true] at h
  obtain ⟨⟨⟨hfirst, _⟩, _⟩, _⟩ := h
  simp only [Option.isSome_none, Bool.or_false, Bool.not_eq_true'] at hfirst
  obtain ⟨p, hmem, hcase⟩ := hp
  cases hcase with
  | inl hc =>
    have hany : s.transfers_pair.any (fun p => p.payee_state.inTransferPaid) = true :=
      List.any_eq_true.2 ⟨p, hmem, hc⟩
    rw [hany] at hfirst
    simp at hfirst
  | inr hc =>
    have hany : s.transfers_pair.any (fun p => p.payer_state.inTransferPaid) = true :=
      List.any_eq_true.2 ⟨p, hmem, hc⟩
    rw [hany] at hfirst
    simp at hfirst

/-! ### Event classifiers and expiry conditions used in the statements -/

def is_unlock_claim_failed_event : Event → Bool
  | .EventUnlockClaimFailed _ _ _ => true
  | _ => false

def is_unlock_failed_event : Event → Bool
  | .EventUnlockFailed _ _ _ => true
  | _ => false

def is_onchain_reveal_event : Event → Bool
  | .ContractSendSecretReveal _ _ => true
  | _ => false

/-- The payer side of a still-pending pair newly expires at this block. -/
def payer_expires (block_number : Nat) (p : MediationPairState) : Bool :=
  is_pending_pair p &&
  decide (p.payer_transfer.lock.expiration < block_number) &&
  !(p.payer_state == .payer_expired)

/-- The payee side of a still-pending pair newly expires at this block. -/
def payee_expires (block_number : Nat) (p : MediationPairState) : Bool :=
  is_pending_pair p &&
  decide (p.payee_transfer.lock.expiration < block_number) &&
  !(p.payee_state == .payee_expired)

/-! ### Per-pair expiry lemmas -/

theorem expire_pair_payer_expired (b : Nat) (p : MediationPairState)
    (hpend : is_pending_pair p = true)
    (hexp : p.payer_transfer.lock.expiration < b)
    (hne : p.payer_state ≠ .payer_expired) :
    (expire_pair b p).payer_state = .payer_expired := by
  by_cases hpayee : (p.payee_transfer.lock.expiration < b ∧
      p.payee_state ≠ .payee_expired) <;>
    simp [expire_pair, hpend, hpayee, hexp, hne]

theorem expire_pair_payee_expired (b : Nat) (p : MediationPairState)
    (hpend : is_pending_pair p = true)
    (hexp : p.payee_transfer.lock.expiration < b)
    (hne : p.payee_state ≠ .payee_expired) :
    (expire_pair b p).payee_state = .payee_expired := by
  by_cases hpayer : (p.payer_transfer.lock.expiration < b ∧
      p.payer_state ≠ .payer_expired) <;>
    simp [expire_pair, hpend, hpayer, hexp, hne]

theorem expire_pair_payer_unchanged (b : Nat) (p : MediationPairState)
    (hle : b ≤ p.payer_transfer.lock.expiration) :
    (expire_pair b p).payer_state = p.payer_state := by
  have hnot : ¬ p.payer_transfer.lock.expiration < b := by omega
  by_cases hpend : is_pending_pair p = true
  · by_cases hpayee : (p.payee_transfer.lock.expiration < b ∧
        p.payee_state ≠ .payee_expired) <;>
      simp [expire_pair, hpend, hpayee, hnot]
  · simp [expire_pair, hpend]

theorem expire_pair_payee_unchanged (b : Nat) (p : MediationPairState)
    (hle : b ≤ p.payee_transfer.lock.expiration) :
    (expire_pair b p).payee_state = p.payee_state := by
  have hnot : ¬ p.payee_transfer.lock.expiration < b := by omega
  by_cases hpend : is_pending_pair p = true
  · by_cases hpayer : (p.payer_transfer.lock.expiration < b ∧
        p.payer_state ≠ .payer_expired) <;>
      simp [expire_pair, hpend, hpayer, hnot]
  · simp [expire_pair, hpend]

theorem expire_events_claim_count (b : Nat) (p : MediationPairState) :
    (expire_pair_events b p).countP is_unlock_claim_failed_event =
      (if payer_expires b p then 1 else 0) := by
  by_cases hpend : is_pending_pair p = true
  · by_cases hpayer : (p.payer_transfer.lock.expiration < b ∧
        p.payer_state ≠ .payer_expired) <;>
      by_cases hpayee : (p.payee_transfer.lock.expiration < b ∧
          p.payee_state ≠ .payee_expired) <;>
        simp [expire_pair_events, payer_expires, hpend, hpayer, hpayee,
          is_unlock_claim_failed_event, List.countP_cons, List.countP_nil,
          List.countP_append]
  · simp [expire_pair_events, payer_expires, hpend]

theorem expire_events_failed_count (b : Nat) (p : MediationPairState) :
    (expire_pair_events b p).countP is_unlock_failed_event =
      (if payee_expires b p then 1 else 0) := by
  by_cases hpend : is_pending_pair p = true
  · by_cases hpayer : (p.payer_transfer.lock.expiration < b ∧
        p.payer_state ≠ .payer_expired) <;>
      by_cases hpayee : (p.payee_transfer.lock.expiration < b ∧
          p.payee_state ≠ .payee_expired) <;>
        simp [expire_pair_events, payee_expires, hpend, hpayer, hpayee,
          is_unlock_failed_event, List.countP_cons, List.countP_nil,
          List.countP_append]
  · simp [expire_pair_events, payee_expires, hpend]

theorem expire_flatten_claim_count (b : Nat) :
    ∀ l : List MediationPairState,
      ((l.map (expire_pair_events b)).flatten).countP is_unlock_claim_failed_event =
        l.countP (payer_expires b)
  | [] => rfl
  | p :: rest => by
    simp only [List.map_cons, List.flatten_cons, List.countP_append,
      List.countP_cons]
    rw [expire_events_claim_count, expire_flatten_claim_count b rest]
    by_cases hcond : payer_expires b p = true <;> simp [hcond] <;> omega

theorem expire_flatten_failed_count (b : Nat) :
    ∀ l : List MediationPairState,
      ((l.map (expire_pair_events b)).flatten).countP is_unlock_failed_event =
        l.countP (payee_expires b)
  | [] => rfl
  | p :: rest => by
    simp only [List.map_cons, List.flatten_cons, List.countP_append,
      List.countP_cons]
    rw [expire_events_failed_count, expire_flatten_failed_count b rest]
    by_cases hcond : payee_expires b p = true <;> simp [hcond] <;> omega

/-- Claim C4: under a `Block`, every still-pending pair whose payer lock
expiration lies strictly below the block number (and whose payer side is
not yet expired) moves to `payer_expired` with one
`EventUnlockClaimFailed` emitted per such pair, symmetrically for the
payee side with `EventUnlockFailed`, and at `block_number` equal to a
lock's expiration that side is left untouched (expiry is strict). -/
theorem set_expired_pairs_spec (transfers_pair : List MediationPairState)
    (block_number : Nat) :
    (set_expired_pairs transfers_pair block_number).1.length =
      transfers_pair.length ∧
    (∀ i : Nat, ∀ p p' : MediationPairState, transfers_pair[i]? = some p →
      (set_expired_pairs transfers_pair block_number).1[i]? = some p' →
      (is_pending_pair p = true → p.payer_transfer.lock.expiration < block_number →
        p.payer_state ≠ .payer_expired → p'.payer_state = .payer_expired) ∧
      (is_pending_pair p = true → p.payee_transfer.lock.expiration < block_number →
        p.payee_state ≠ .payee_expired → p'.payee_state = .payee_expired) ∧
      (block_number ≤ p.payer_transfer.lock.expiration →
        p'.payer_state = p.payer_state) ∧
      (block_number ≤ p.payee_transfer.lock.expiration →
        p'.payee_state = p.payee_state)) ∧
    (set_expired_pairs transfers_pair block_number).2.countP
      is_unlock_claim_failed_event =
      transfers_pair.countP (payer_expires block_number) ∧
    (set_expired_pairs transfers_pair block_number).2.countP
      is_unlock_failed_event =
      transfers_pair.countP (payee_expires block_number) := by
  refine ⟨List.length_map _ _, ?_, expire_flatten_claim_count block_number _,
    expire_flatten_failed_count block_number _⟩
  intro i p p' hp hp'
  have hmap : (set_expired_pairs transfers_pair block_number).1[i]? =
      some (expire_pair block_number p) := by
    show (transfers_pair.map (expire_pair block_number))[i]? = _
    rw [List.getElem?_map, hp]
    rfl
  rw [hmap] at hp'
  have hp'' : p' = expire_pair block_number p := (Option.some_inj.mp hp').symm
  subst hp''
  exact ⟨expire_pair_payer_expired block_number p,
    expire_pair_payee_expired block_number p,
    expire_pair_payer_unchanged block_number p,
    expire_pair_payee_unchanged block_number p⟩

theorem set_expired_pairs_spec_witness :
    ((mediator.set_expired_pairs [fixtures.pair0] 101).1[0]?.map
        (fun q => q.payer_state) = some (.payer_expired)) ∧
    ((mediator.set_expired_pairs [fixtures.pair0] 100).1[0]?.map
        (fun q => q.payer_state) = some fixtures.pair0.payer_state) ∧
    (mediator.set_expired_pairs [fixtures.pair0] 101).2.countP
      mediator.is_unlock_claim_failed_event = 1 := by
  have h101 := set_expired_pairs_spec [fixtures.pair0] 101
  have h100 := set_expired_pairs_spec [fixtures.pair0] 100
  refine ⟨?_, ?_, ?_⟩
  · have := (h101.2.1 0 fixtures.pair0 (mediator.expire_pair 101 fixtures.pair0)
      (by decide) (by decide)).1 (by decide) (by decide) (by decide)
    rw [show (mediator.set_expired_pairs [fixtures.pair0] 101).1[0]? =
      some (mediator.expire_pair 101 fixtures.pair0) from by decide]
    simp only [Option.map_some']
    exact congrArg some this
  · have := (h100.2.1 0 fixtures.pair0 (mediator.expire_pair 100 fixtures.pair0)
      (by decide) (by decide)).2.2.1 (by decide)
    rw [show (mediator.set_expired_pairs [fixtures.pair0] 100).1[0]? =
      some (mediator.expire_pair 100 fixtures.pair0) from by decide]
    simp only [Option.map_some']
    exact congrArg some this
  · rw [h101.2.2.1]
    decide

/-! ### On-chain reveal selection -/

/-- The reveal condition of §4.2, evaluated on one pair: the payer lock
is no longer safe to wait on and the secret is registered on the payer
channel's partner state (false when the channel is missing or the
safety check's asserts would fire). -/
def onchain_reveal_cond (channelidentifiers_to_channels : ChannelMap)
    (block_number : Nat) (pair : MediationPairState) : Bool :=
  match get_payer_channel channelidentifiers_to_channels pair with
  | none => false
  | some payer_channel =>
    match is_safe_to_wait pair.payer_transfer.lock.expiration
        payer_channel.reveal_timeout block_number with
    | none => false
    | some safe_to_wait =>
      !safe_to_wait && is_secret_known payer_channel.partner_state
        pair.payer_transfer.lock.secrethash

/-- One-pair precondition under which `is_safe_to_wait` cannot raise on
the pair's payer channel. -/
def safe_wait_preconds (channelidentifiers_to_channels : ChannelMap)
    (block_number : Nat) (q : MediationPairState) : Prop :=
  ∃ c, get_payer_channel channelidentifiers_to_channels q = some c ∧
    0 < block_number ∧ 0 < c.reveal_timeout ∧
    c.reveal_timeout < q.payer_transfer.lock.expiration

theorem onchain_go_spec (channelidentifiers_to_channels : ChannelMap)
    (block_number : Nat) :
    ∀ l : List MediationPairState,
      (∀ q ∈ l, safe_wait_preconds channelidentifiers_to_channels block_number q) →
      ((l.find? (onchain_reveal_cond channelidentifiers_to_channels block_number) =
          none →
        onchain_secretreveal_go channelidentifiers_to_channels block_number l =
          some []) ∧
      (∀ q, l.find? (onchain_reveal_cond channelidentifiers_to_channels
          block_number) = some q →
        ∃ c s, get_payer_channel channelidentifiers_to_channels q = some c ∧
          get_secret c.partner_state q.payer_transfer.lock.secrethash = some s ∧
          onchain_secretreveal_go channelidentifiers_to_channels block_number l =
            some [.ContractSendSecretReveal s q.payer_transfer.lock.expiration]))
  | [], _ => ⟨fun _ => rfl, fun q hq => by simp at hq⟩
  | p :: rest, htot => by
    obtain ⟨c, hc, hbn, hr, he⟩ := htot p (List.mem_cons_self p rest)
    obtain ⟨sb, hsb⟩ : ∃ sb, is_safe_to_wait p.payer_transfer.lock.expiration
        c.reveal_timeout block_number = some sb := by
      unfold is_safe_to_wait
      rw [if_pos ⟨hbn, hr, he⟩]
      exact ⟨_, rfl⟩
    have hcond_eq : onchain_reveal_cond channelidentifiers_to_channels
        block_number p = (!sb && is_secret_known c.partner_state
          p.payer_transfer.lock.secrethash) := by
      unfold onchain_reveal_cond
      simp only [hc, hsb]
    by_cases hcond : onchain_reveal_cond channelidentifiers_to_channels
        block_number p = true
    · have hfind : (p :: rest).find? (onchain_reveal_cond
          channelidentifiers_to_channels block_number) = some p :=
        List.find?_cons_of_pos _ hcond
      refine ⟨fun hnone => by rw [hfind] at hnone; exact absurd hnone (by simp),
        fun q hq => ?_⟩
      rw [hfind] at hq
      obtain rfl : p = q := Option.some_inj.mp hq
      rw [hcond_eq] at hcond
      rw [Bool.and_eq_true] at hcond
      have hknown := hcond.2
      unfold is_secret_known at hknown
      obtain ⟨s, hs⟩ := Option.isSome_iff_exists.mp hknown
      refine ⟨c, s, hc, hs, ?_⟩
      show onchain_secretreveal_go channelidentifiers_to_channels block_number
        (p :: rest) = _
      unfold onchain_secretreveal_go
      simp only [hc, hsb]
      have hif : (!sb && is_secret_known c.partner_state
          p.payer_transfer.lock.secrethash) = true := by
        rw [Bool.and_eq_true]; exact hcond
      rw [if_pos hif]
      simp only [get_secret, hs]
      rfl
    · have hfind : (p :: rest).find? (onchain_reveal_cond
          channelidentifiers_to_channels block_number) =
          rest.find? (onchain_reveal_cond channelidentifiers_to_channels
            block_number) :=
        List.find?_cons_of_neg _ (by simpa using hcond)
      have hgo : onchain_secretreveal_go channelidentifiers_to_channels
          block_number (p :: rest) = onchain_secretreveal_go
          channelidentifiers_to_channels block_number rest := by
        conv_lhs => rw [onchain_secretreveal_go]
        simp only [hc, hsb]
        rw [if_neg (by rw [hcond_eq] at hcond; exact hcond)]
      have ih := onchain_go_spec channelidentifiers_to_channels block_number rest
        (fun q hq => htot q (List.mem_cons_of_mem p hq))
      rw [hfind, hgo]
      exact ih

theorem onchain_go_total (channelidentifiers_to_channels : ChannelMap)
    (block_number : Nat) (l : List MediationPairState)
    (htot : ∀ q ∈ l, safe_wait_preconds channelidentifiers_to_channels
      block_number q) :
    ∃ evs, onchain_secretreveal_go channelidentifiers_to_channels block_number l =
      some evs := by
  have hspec := onchain_go_spec channelidentifiers_to_channels block_number l htot
  cases hfind : l.find? (onchain_reveal_cond channelidentifiers_to_channels
      block_number) with
  | none => exact ⟨[], hspec.1 hfind⟩
  | some q =>
    obtain ⟨c, s, _, _, hgo⟩ := hspec.2 q hfind
    exact ⟨_, hgo⟩

/-- The expiry bookkeeping emits no on-chain reveal. -/
theorem expire_events_no_reveal (b : Nat) (p : MediationPairState) :
    (expire_pair_events b p).filter is_onchain_reveal_event = [] := by
  by_cases hpend : is_pending_pair p = true
  · by_cases hpayer : (p.payer_transfer.lock.expiration < b ∧
        p.payer_state ≠ .payer_expired) <;>
      by_cases hpayee : (p.payee_transfer.lock.expiration < b ∧
          p.payee_state ≠ .payee_expired) <;>
        simp [expire_pair_events, hpend, hpayer, hpayee, is_onchain_reveal_event]
  · simp [expire_pair_events, hpend]

theorem set_expired_no_reveal (b : Nat) :
    ∀ l : List MediationPairState,
      (set_expired_pairs l b).2.filter is_onchain_reveal_event = []
  | [] => rfl
  | p :: rest => by
    show ((expire_pair_events b p) ++
      (rest.map (expire_pair_events b)).flatten).filter is_onchain_reveal_event = []
    rw [List.filter_append, expire_events_no_reveal]
    exact set_expired_no_reveal b rest

/-- Shape of `handle_block` when the lock-expiry cleanup branch does not
fire and the reveal selection does not raise. -/
theorem handle_block_normal (mediator_state : MediatorTransferState)
    (sc : Block) (channelidentifiers_to_channels : ChannelMap)
    (prng block_number : Nat)
    (first_pair : MediationPairState) (c0 : NettingChannelState)
    (hhead : mediator_state.transfers_pair.head? = some first_pair)
    (hc0 : List.lookup first_pair.payee_transfer.balance_proof.channel_identifier
      channelidentifiers_to_channels = some c0)
    (hnoclean : ∀ ll, List.lookup mediator_state.secrethash
        c0.our_state.secrethashes_to_lockedlocks = some ll →
      sc.block_number ≤ ll.expiration + DEFAULT_NUMBER_OF_CONFIRMATIONS_BLOCK)
    (revs : List Event)
    (hrev : events_for_onchain_secretreveal channelidentifiers_to_channels
      mediator_state.transfers_pair block_number = some revs) :
    handle_block mediator_state sc channelidentifiers_to_channels prng
      block_number =
      some ⟨some { mediator_state with transfers_pair :=
          (set_expired_pairs mediator_state.transfers_pair block_number).1 },
        (set_expired_pairs mediator_state.transfers_pair block_number).2 ++
          revs⟩ := by
  unfold handle_block
  simp only [hhead, hc0]
  cases hll : List.lookup mediator_state.secrethash
      c0.our_state.secrethashes_to_lockedlocks with
  | none =>
    simp only [hll, Bool.false_eq_true, if_false, hrev]
  | some ll =>
    have hle := hnoclean ll hll
    have hfalse : decide (ll.expiration + DEFAULT_NUMBER_OF_CONFIRMATIONS_BLOCK <
        sc.block_number) = false := decide_eq_false (by omega)
    simp only [hll, hfalse, Bool.false_eq_true, if_false, hrev]

/-- Claim C1 (amended): when the cleanup branch does not fire, the
`Block` transition walks the pending pairs from latest to earliest and
emits exactly one `ContractSendSecretReveal`, for the first pair that is
unsafe to wait on with the secret registered on the payer partner, or
none when no such pair exists. -/
theorem handle_block_onchain_reveal_selection
    (mediator_state : MediatorTransferState) (sc : Block)
    (channelidentifiers_to_channels : ChannelMap) (prng block_number : Nat)
    (first_pair : MediationPairState) (c0 : NettingChannelState)
    (hhead : mediator_state.transfers_pair.head? = some first_pair)
    (hc0 : List.lookup first_pair.payee_transfer.balance_proof.channel_identifier
      channelidentifiers_to_channels = some c0)
    (hnoclean : ∀ ll, List.lookup mediator_state.secrethash
        c0.our_state.secrethashes_to_lockedlocks = some ll →
      sc.block_number ≤ ll.expiration + DEFAULT_NUMBER_OF_CONFIRMATIONS_BLOCK)
    (htot : ∀ q ∈ mediator_state.transfers_pair, is_pending_pair q = true →
      safe_wait_preconds channelidentifiers_to_channels block_number q) :
    ∃ tr, handle_block mediator_state sc channelidentifiers_to_channels prng
        block_number = some tr ∧
      (((get_pending_transfer_pairs mediator_state.transfers_pair).reverse.find?
          (onchain_reveal_cond channelidentifiers_to_channels block_number) =
            none →
        tr.events.filter is_onchain_reveal_event = []) ∧
      (∀ q, (get_pending_transfer_pairs mediator_state.transfers_pair).reverse.find?
          (onchain_reveal_cond channelidentifiers_to_channels block_number) =
            some q →
        ∃ c s, get_payer_channel channelidentifiers_to_channels q = some c ∧
          get_secret c.partner_state q.payer_transfer.lock.secrethash = some s ∧
          tr.events.filter is_onchain_reveal_event =
            [.ContractSendSecretReveal s q.payer_transfer.lock.expiration])) := by
  have htot' : ∀ q ∈ (get_pending_transfer_pairs
      mediator_state.transfers_pair).reverse,
      safe_wait_preconds channelidentifiers_to_channels block_number q := by
    intro q hq
    rw [List.mem_reverse] at hq
    have hmem := List.mem_filter.mp hq
    exact htot q hmem.1 hmem.2
  have hspec := onchain_go_spec channelidentifiers_to_channels block_number _ htot'
  cases hfind : (get_pending_transfer_pairs
      mediator_state.transfers_pair).reverse.find?
      (onchain_reveal_cond channelidentifiers_to_channels block_number) with
  | none =>
    have hrev : events_for_onchain_secretreveal channelidentifiers_to_channels
        mediator_state.transfers_pair block_number = some [] := hspec.1 hfind
    refine ⟨_, handle_block_normal mediator_state sc channelidentifiers_to_channels
      prng block_number first_pair c0 hhead hc0 hnoclean [] hrev, ?_, ?_⟩
    · intro _
      simp only [List.filter_append, set_expired_no_reveal, List.filter_nil,
        List.append_nil]
    · intro q hq
      exact absurd hq (by simp)
  | some q0 =>
    obtain ⟨c, s, hc, hs, hgo⟩ := hspec.2 q0 hfind
    refine ⟨_, handle_block_normal mediator_state sc channelidentifiers_to_channels
      prng block_number first_pair c0 hhead hc0 hnoclean _ hgo, ?_, ?_⟩
    · intro hnone
      exact absurd hnone (by simp)
    · intro q hq
      obtain rfl : q0 = q := Option.some_inj.mp hq
      refine ⟨c, s, hc, hs, ?_⟩
      simp only [List.filter_append, set_expired_no_reveal, List.nil_append]
      rfl

theorem handle_block_onchain_reveal_selection_witness :
    ∃ tr, mediator.handle_block fixtures.mState ⟨91⟩ fixtures.chanMap 0 91 =
        some tr ∧
      (((mediator.get_pending_transfer_pairs
          fixtures.mState.transfers_pair).reverse.find?
          (mediator.onchain_reveal_cond fixtures.chanMap 91) = none →
        tr.events.filter mediator.is_onchain_reveal_event = []) ∧
      (∀ q, (mediator.get_pending_transfer_pairs
          fixtures.mState.transfers_pair).reverse.find?
          (mediator.onchain_reveal_cond fixtures.chanMap 91) = some q →
        ∃ c s, mediator.get_payer_channel fixtures.chanMap q = some c ∧
          mediator.get_secret c.partner_state
            q.payer_transfer.lock.secrethash = some s ∧
          tr.events.filter mediator.is_onchain_reveal_event =
            [.ContractSendSecretReveal s q.payer_transfer.lock.expiration])) :=
  handle_block_onchain_reveal_selection fixtures.mState ⟨91⟩ fixtures.chanMap 0 91
    fixtures.pair0 fixtures.payeeChan rfl rfl
    (by intro ll h; exact nomatch h)
    (by
      intro q hq _
      rw [show fixtures.mState.transfers_pair = [fixtures.pair0] from rfl,
        List.mem_singleton] at hq
      subst hq
      exact ⟨fixtures.payerChan, rfl, by decide, by decide, by decide⟩)

/-- Claim C1 is false as stated on two counts: at `block = 90` the lock
timeout equals the reveal timeout, which is already unsafe, so the code
emits the on-chain reveal that the claim says must not appear; and when
the lock-expiry cleanup branch fires, the transition returns early with
only the expiry event even though a qualifying pair exists. -/
theorem handle_block_onchain_reveal_counterexample :
    ((mediator.handle_block fixtures.mState ⟨90⟩ fixtures.chanMap 0 90).map
      (fun tr => tr.events.countP mediator.is_onchain_reveal_event) = some 1) ∧
    mediator.onchain_reveal_cond fixtures.chanMap 90 fixtures.pair0 = true ∧
    ((mediator.handle_block fixtures.mState ⟨200⟩ fixtures.chanMapLL 0 200).map
      (fun tr => tr.events.countP mediator.is_onchain_reveal_event) = some 0) ∧
    mediator.onchain_reveal_cond fixtures.chanMapLL 200 fixtures.pair0 = true ∧
    fixtures.mState.transfers_pair = [fixtures.pair0] := by
  decide

/-- The claim-failed event of a pair whose payer side newly expires is
among the expiry events. -/
theorem claim_failed_mem_set_expired (l : List MediationPairState) (b : Nat)
    (p : MediationPairState) (hmem : p ∈ l)
    (hpend : is_pending_pair p = true)
    (hexp : p.payer_transfer.lock.expiration < b)
    (hne : p.payer_state ≠ .payer_expired) :
    Event.EventUnlockClaimFailed p.payer_transfer.payment_identifier
      p.payer_transfer.lock.secrethash "lock expired" ∈
      (set_expired_pairs l b).2 := by
  show _ ∈ (l.map (expire_pair_events b)).flatten
  rw [List.mem_flatten]
  refine ⟨expire_pair_events b p, List.mem_map_of_mem _ hmem, ?_⟩
  simp [expire_pair_events, hpend, hexp, hne]

/-- Claim C5: a `Block` past the payer lock expiration applied to a
state whose pair has already paid the payee (payee side in
`payee_balance_proof`) completes without raising, marks the payer side
expired and emits `EventUnlockClaimFailed`; no payer-expired ⇒
payee-expired assertion exists. -/
theorem handle_block_payee_paid_tolerated
    (mediator_state : MediatorTransferState) (sc : Block)
    (channelidentifiers_to_channels : ChannelMap) (prng block_number : Nat)
    (first_pair : MediationPairState) (c0 : NettingChannelState)
    (hhead : mediator_state.transfers_pair.head? = some first_pair)
    (hc0 : List.lookup first_pair.payee_transfer.balance_proof.channel_identifier
      channelidentifiers_to_channels = some c0)
    (hnoclean : ∀ ll, List.lookup mediator_state.secrethash
        c0.our_state.secrethashes_to_lockedlocks = some ll →
      sc.block_number ≤ ll.expiration + DEFAULT_NUMBER_OF_CONFIRMATIONS_BLOCK)
    (htot : ∀ q ∈ mediator_state.transfers_pair, is_pending_pair q = true →
      safe_wait_preconds channelidentifiers_to_channels block_number q)
    (i : Nat) (p : MediationPairState)
    (hp : mediator_state.transfers_pair[i]? = some p)
    (hpayee : p.payee_state = .payee_balance_proof)
    (hpnf : p.payer_state.inTransferFinal = false)
    (hexp : p.payer_transfer.lock.expiration < block_number) :
    ∃ tr s', handle_block mediator_state sc channelidentifiers_to_channels prng
        block_number = some tr ∧
      tr.new_state = some s' ∧
      (∃ p', s'.transfers_pair[i]? = some p' ∧
        p'.payer_state = .payer_expired) ∧
      Event.EventUnlockClaimFailed p.payer_transfer.payment_identifier
        p.payer_transfer.lock.secrethash "lock expired" ∈ tr.events := by
  have hpend : is_pending_pair p = true := by
    simp [is_pending_pair, hpnf]
  have hne : p.payer_state ≠ .payer_expired := by
    intro heq
    rw [heq] at hpnf
    simp [PayerState.inTransferFinal] at hpnf
  have htot' : ∀ q ∈ (get_pending_transfer_pairs
      mediator_state.transfers_pair).reverse,
      safe_wait_preconds channelidentifiers_to_channels block_number q := by
    intro q hq
    rw [List.mem_reverse] at hq
    have hmem := List.mem_filter.mp hq
    exact htot q hmem.1 hmem.2
  obtain ⟨revs, hrev⟩ := onchain_go_total channelidentifiers_to_channels
    block_number _ htot'
  refine ⟨_, _, handle_block_normal mediator_state sc
    channelidentifiers_to_channels prng block_number first_pair c0 hhead hc0
    hnoclean revs hrev, rfl, ?_, ?_⟩
  · refine ⟨expire_pair block_number p, ?_, ?_⟩
    · show (mediator_state.transfers_pair.map (expire_pair block_number))[i]? = _
      rw [List.getElem?_map, hp]
      rfl
    · exact expire_pair_payer_expired block_number p hpend hexp hne
  · exact List.mem_append_left _ (claim_failed_mem_set_expired _ _ p
      (List.getElem?_mem hp) hpend hexp hne)

theorem handle_block_payee_paid_tolerated_witness :
    ∃ tr s', mediator.handle_block fixtures.mStatePaid ⟨101⟩ fixtures.chanMap 0
        101 = some tr ∧
      tr.new_state = some s' ∧
      (∃ p', s'.transfers_pair[0]? = some p' ∧
        p'.payer_state = .payer_expired) ∧
      Event.EventUnlockClaimFailed
        fixtures.pair0.payer_transfer.payment_identifier
        fixtures.pair0.payer_transfer.lock.secrethash "lock expired" ∈
        tr.events :=
  handle_block_payee_paid_tolerated fixtures.mStatePaid ⟨101⟩ fixtures.chanMap 0
    101 { fixtures.pair0 with payee_state := .payee_balance_proof }
    fixtures.payeeChan rfl rfl
    (by intro ll h; exact nomatch h)
    (by
      intro q hq _
      rw [show fixtures.mStatePaid.transfers_pair =
        [{ fixtures.pair0 with payee_state := .payee_balance_proof }] from rfl,
        List.mem_singleton] at hq
      subst hq
      exact ⟨fixtures.payerChan, rfl, by decide, by decide, by decide⟩)
    0 { fixtures.pair0 with payee_state := .payee_balance_proof }
    rfl rfl rfl (by decide)

/-- Claim C10 (amended): `handle_block` completes when the pair list is
non-empty, the first pair's payee channel is present, and every pending
pair's payer channel is present with a positive block number, a positive
reveal timeout and a lock expiration above it (the `is_safe_to_wait`
asserts); channel presence alone is not enough. -/
theorem handle_block_total
    (mediator_state : MediatorTransferState) (sc : Block)
    (channelidentifiers_to_channels : ChannelMap) (prng block_number : Nat)
    (first_pair : MediationPairState) (c0 : NettingChannelState)
    (hhead : mediator_state.transfers_pair.head? = some first_pair)
    (hc0 : List.lookup first_pair.payee_transfer.balance_proof.channel_identifier
      channelidentifiers_to_channels = some c0)
    (htot : ∀ q ∈ mediator_state.transfers_pair, is_pending_pair q = true →
      safe_wait_preconds channelidentifiers_to_channels block_number q) :
    (handle_block mediator_state sc channelidentifiers_to_channels prng
      block_number).isSome = true := by
  have htot' : ∀ q ∈ (get_pending_transfer_pairs
      mediator_state.transfers_pair).reverse,
      safe_wait_preconds channelidentifiers_to_channels block_number q := by
    intro q hq
    rw [List.mem_reverse] at hq
    have hmem := List.mem_filter.mp hq
    exact htot q hmem.1 hmem.2
  obtain ⟨revs, hrev⟩ := onchain_go_total channelidentifiers_to_channels
    block_number _ htot'
  cases hll : List.lookup mediator_state.secrethash
      c0.our_state.secrethashes_to_lockedlocks with
  | none =>
    rw [handle_block_normal mediator_state sc channelidentifiers_to_channels
      prng block_number first_pair c0 hhead hc0
      (by intro ll h; rw [h] at hll; exact absurd hll (by simp)) revs hrev]
    rfl
  | some ll =>
    by_cases hth : ll.expiration + DEFAULT_NUMBER_OF_CONFIRMATIONS_BLOCK <
        sc.block_number
    · unfold handle_block
      simp only [hhead, hc0, hll]
      rw [if_pos (by exact decide_eq_true hth)]
      rfl
    · rw [handle_block_normal mediator_state sc channelidentifiers_to_channels
        prng block_number first_pair c0 hhead hc0
        (by intro ll' h; rw [h] at hll; obtain rfl : ll' = ll :=
          Option.some_inj.mp hll; omega) revs hrev]
      rfl

theorem handle_block_total_witness :
    (mediator.handle_block fixtures.mState ⟨91⟩ fixtures.chanMap 0 91).isSome =
      true :=
  handle_block_total fixtures.mState ⟨91⟩ fixtures.chanMap 0 91 fixtures.pair0
    fixtures.payeeChan rfl rfl
    (by
      intro q hq _
      rw [show fixtures.mState.transfers_pair = [fixtures.pair0] from rfl,
        List.mem_singleton] at hq
      subst hq
      exact ⟨fixtures.payerChan, rfl, by decide, by decide, by decide⟩)

/-- Claim C10 is false as stated: with a non-empty pair list and every
payer and payee channel present in the map, `handle_block` still raises
when a pending pair's payer channel has a zero reveal timeout, because
`is_safe_to_wait` asserts `reveal_timeout > 0`. -/
theorem handle_block_total_counterexample :
    mediator.handle_block fixtures.mState ⟨6⟩ fixtures.chanMapZero 0 6 = none ∧
    fixtures.mState.transfers_pair ≠ [] ∧
    (∀ q ∈ fixtures.mState.transfers_pair,
      (List.lookup q.payer_transfer.balance_proof.channel_identifier
        fixtures.chanMapZero).isSome = true ∧
      (List.lookup q.payee_transfer.balance_proof.channel_identifier
        fixtures.chanMapZero).isSome = true) := by
  decide

/-- Claim C3: for positive block number and reveal timeout with
`lock_expiration > reveal_timeout`, `is_safe_to_wait` returns true
exactly when `lock_expiration - block_number > reveal_timeout`; in
particular it is true at difference `reveal_timeout + 1` and false at
difference `reveal_timeout`. -/
theorem is_safe_to_wait_spec (lock_expiration reveal_timeout block_number : Nat)
    (hb : 0 < block_number) (hr : 0 < reveal_timeout)
    (he : reveal_timeout < lock_expiration) :
    (is_safe_to_wait lock_expiration reveal_timeout block_number = some true ↔
      (reveal_timeout : Int) < (lock_expiration : Int) - (block_number : Int)) ∧
    ((lock_expiration : Int) - (block_number : Int) = (reveal_timeout : Int) + 1 →
      is_safe_to_wait lock_expiration reveal_timeout block_number = some true) ∧
    ((lock_expiration : Int) - (block_number : Int) = (reveal_timeout : Int) →
      is_safe_to_wait lock_expiration reveal_timeout block_number = some false) := by
  unfold is_safe_to_wait
  rw [if_pos ⟨hb, hr, he⟩]
  refine ⟨?_, ?_, ?_⟩
  · simp [decide_eq_true_eq]
  · intro hdiff; simp [decide_eq_true_eq]; omega
  · intro hdiff; simp [decide_eq_false_iff_not]; omega

theorem is_safe_to_wait_spec_witness :
    (mediator.is_safe_to_wait 100 10 89 = some true ↔
      (10 : Int) < (100 : Int) - (89 : Int)) ∧
    ((100 : Int) - (89 : Int) = (10 : Int) + 1 →
      mediator.is_safe_to_wait 100 10 89 = some true) ∧
    ((100 : Int) - (89 : Int) = (10 : Int) →
      mediator.is_safe_to_wait 100 10 89 = some false) :=
  is_safe_to_wait_spec 100 10 89 (by decide) (by decide) (by decide)

/-- Claim C7: a `ReceiveTransferRefund` arriving while the mediator
state already holds the secret is a no-op: the handler returns the same
state and no events. -/
theorem handle_refundtransfer_secret_known_noop
    (mediator_state : MediatorTransferState)
    (mediator_state_change : ReceiveTransferRefund)
    (channelidentifiers_to_channels : ChannelMap)
    (pseudo_random_generator block_number : Nat) (s : Secret)
    (h : mediator_state.secret = some s) :
    handle_refundtransfer mediator_state mediator_state_change
      channelidentifiers_to_channels pseudo_random_generator block_number =
      some ⟨some mediator_state, []⟩ := by
  unfold handle_refundtransfer
  rw [if_neg (by simp [h])]

theorem handle_refundtransfer_secret_known_noop_witness :
    mediator.handle_refundtransfer fixtures.mStatePaid ⟨fixtures.payerT, []⟩
      fixtures.chanMap 0 50 = some ⟨some fixtures.mStatePaid, []⟩ :=
  handle_refundtransfer_secret_known_noop fixtures.mStatePaid
    ⟨fixtures.payerT, []⟩ fixtures.chanMap 0 50 77 rfl

/-- Claim C6: when no filtered route is usable and the refund channel
(the payer channel of the first pair if pairs exist, else the original
payer channel) is itself unusable for the refunded transfer's amount and
lock timeout, `mediate_transfer` emits no events and keeps the state;
and `clear_if_finalized` retains such a state as long as some pair is
not paid on both sides. -/
theorem mediate_transfer_no_route_waits (state : MediatorTransferState)
    (possible_routes : List RouteState) (payer_channel : NettingChannelState)
    (channelidentifiers_to_channels : ChannelMap) (pseudo_random_generator : Nat)
    (payer_transfer : LockedTransferState) (block_number : Nat)
    (hsender : payer_channel.partner_state.address =
      payer_transfer.balance_proof.sender)
    (hnoroute : next_channel_from_routes
      (filter_used_routes state.transfers_pair possible_routes)
      channelidentifiers_to_channels payer_transfer.lock.amount
      ((payer_transfer.lock.expiration : Int) - (block_number : Int)) = none)
    (hrefund_fresh : state.transfers_pair = [] →
      is_channel_usable payer_channel payer_transfer.lock.amount
        ((payer_transfer.lock.expiration : Int) - (block_number : Int)) = false)
    (hrefund_chain : ∀ p0 rest, state.transfers_pair = p0 :: rest →
      ∃ c, get_payer_channel channelidentifiers_to_channels p0 = some c ∧
        is_channel_usable c p0.payer_transfer.lock.amount
          ((p0.payer_transfer.lock.expiration : Int) - (block_number : Int)) =
          false) :
    mediate_transfer state possible_routes payer_channel
      channelidentifiers_to_channels pseudo_random_generator payer_transfer
      block_number = some (state, []) ∧
    ((∃ p ∈ state.transfers_pair,
      ¬(p.payee_state.inTransferPaid = true ∧ p.payer_state.inTransferPaid = true)) →
      clear_if_finalized ⟨some state, []⟩ = ⟨some state, []⟩) := by
  constructor
  · have hnt : next_transfer_pair payer_transfer
        (filter_used_routes state.transfers_pair possible_routes)
        channelidentifiers_to_channels pseudo_random_generator block_number =
        some (none, []) := by
      unfold next_transfer_pair
      simp only [hnoroute]
    unfold mediate_transfer
    rw [if_neg (by simp [hsender])]
    simp only [hnt]
    cases hpairs : state.transfers_pair with
    | nil =>
      simp only [hpairs]
      unfold events_for_refund_transfer
      rw [if_neg (by simp [hrefund_fresh hpairs])]
    | cons p0 rest =>
      obtain ⟨c, hc, husable⟩ := hrefund_chain p0 rest hpairs
      simp only [hpairs, hc, Option.map_some']
      unfold events_for_refund_transfer
      rw [if_neg (by simp [husable])]
  · intro ⟨p, hmem, hnp⟩
    unfold clear_if_finalized
    simp only []
    rw [if_neg ?hne]
    case hne =>
      intro hall
      have := List.all_eq_true.mp hall p hmem
      rw [Bool.and_eq_true] at this
      exact hnp this

theorem mediate_transfer_no_route_waits_witness :
    mediator.mediate_transfer fixtures.freshState [⟨2⟩] fixtures.closedPayerChan
      fixtures.chanMapClosed 0 fixtures.payerT 5 =
      some (fixtures.freshState, []) ∧
    ((∃ p ∈ fixtures.freshState.transfers_pair,
      ¬(p.payee_state.inTransferPaid = true ∧
        p.payer_state.inTransferPaid = true)) →
      mediator.clear_if_finalized ⟨some fixtures.freshState, []⟩ =
        ⟨some fixtures.freshState, []⟩) :=
  mediate_transfer_no_route_waits fixtures.freshState [⟨2⟩]
    fixtures.closedPayerChan fixtures.chanMapClosed 0 fixtures.payerT 5
    rfl rfl (fun _ => rfl) (by intro p0 rest h; exact nomatch h)

/-- Claim C2: every `state_transition` that yields a non-null new state
yields a state in which a pair on either side in `STATE_TRANSFER_PAID`
implies the secret is set (`sanity_check` enforces the invariant after
every dispatch, so no escaping state violates it). -/
theorem state_transition_paid_implies_secret
    (mediator_state : Option MediatorTransferState) (state_change : StateChange)
    (channelidentifiers_to_channels : ChannelMap)
    (pseudo_random_generator block_number : Nat)
    (tr : TransitionResult) (s' : MediatorTransferState)
    (h : state_transition mediator_state state_change
      channelidentifiers_to_channels pseudo_random_generator block_number = some tr)
    (hs : tr.new_state = some s')
    (hpaid : ∃ p ∈ s'.transfers_pair,
      p.payee_state.inTransferPaid = true ∨ p.payer_state.inTransferPaid = true) :
    s'.secret ≠ none := by
  unfold state_transition at h
  split at h
  · simp at h
  · rename_i iter _
    split at h
    · rename_i st hns
      split at h
      · rename_i hsan
        have htr : tr = clear_if_finalized iter := (Option.some_inj.mp h).symm
        rw [htr] at hs
        have hsome := clear_if_finalized_new_state iter s' hs
        rw [hns] at hsome
        have hst : st = s' := Option.some_inj.mp hsome
        rw [hst] at hsan
        exact sanity_check_paid s' hsan hpaid
      · simp at h
    · rename_i hns
      have htr : tr = clear_if_finalized iter := (Option.some_inj.mp h).symm
      rw [htr] at hs
      have hsome := clear_if_finalized_new_state iter s' hs
      rw [hns] at hsome
      simp at hsome

theorem state_transition_paid_implies_secret_witness :
    fixtures.mStatePaid.secret ≠ none :=
  state_transition_paid_implies_secret (some fixtures.mStatePaid)
    (.unlock ⟨⟨1, 555⟩, 5⟩) fixtures.chanMap 0 91
    ⟨some fixtures.mStatePaid, []⟩ fixtures.mStatePaid
    (by decide) rfl (by decide)

end mediator

namespace protocol

/-- The senthashes table is untouched by the queue update. -/
theorem queue_put_senthashes (st : ProtocolState) (key : Address × TokenAddr)
    (data : List Nat) :
    (queue_put st key data).senthashes_to_states = st.senthashes_to_states := by
  unfold queue_put
  by_cases h : (List.lookup key st.channel_queue).isSome = true
  · rw [if_pos h]
  · rw [if_neg h]

/-- Claim C9: `send_async` is idempotent per echohash — a second call
with the identical message and receiver returns the very same
`AsyncResult` (the stored allocation) and leaves the protocol state,
including the per-channel queues, unchanged. -/
theorem send_async_idempotent (st : ProtocolState) (receiver_address : Address)
    (message : Msg) (st1 : ProtocolState) (r1 : Nat)
    (h : send_async st receiver_address message = some (st1, r1)) :
    send_async st1 receiver_address message = some (st1, r1) := by
  cases message with
  | ackMsg s e => exact absurd h (by simp [send_async])
  | pingMsg n s => exact absurd h (by simp [send_async])
  | signedMsg s token payload =>
    unfold send_async at h ⊢
    by_cases hsz : UDP_MAX_MESSAGE_SIZE <
        (Msg.signedMsg s token payload).encode.length
    · rw [if_pos hsz] at h; exact absurd h (by simp)
    · rw [if_neg hsz] at h
      rw [if_neg hsz]
      cases hl : List.lookup
          (sha3cat (Msg.signedMsg s token payload).encode receiver_address)
          st.senthashes_to_states with
      | some waitack =>
        rw [hl] at h
        have hpair := Option.some_inj.mp h
        have hst : st1 = st := (congrArg Prod.fst hpair).symm
        have hr : r1 = waitack.async_result := (congrArg Prod.snd hpair).symm
        rw [hst, hl, hr]
      | none =>
        rw [hl] at h
        have hpair := Option.some_inj.mp h
        have hr : r1 = st.next_future_id := (congrArg Prod.snd hpair).symm
        have hst : st1 = queue_put
            { st with
              next_future_id := st.next_future_id + 1
              future_values := st.future_values ++ [(st.next_future_id, none)]
              senthashes_to_states := st.senthashes_to_states ++
                [(sha3cat (Msg.signedMsg s token payload).encode receiver_address,
                  ⟨st.next_future_id, receiver_address⟩)] }
            (receiver_address, (Msg.signedMsg s token payload).tokenOf)
            (Msg.signedMsg s token payload).encode :=
          (congrArg Prod.fst hpair).symm
        have hlook : List.lookup
            (sha3cat (Msg.signedMsg s token payload).encode receiver_address)
            st1.senthashes_to_states =
            some ⟨st.next_future_id, receiver_address⟩ := by
          rw [hst, queue_put_senthashes]
          exact lookup_append_self _ _ _ hl
        rw [hlook, hr]

theorem send_async_idempotent_witness :
    send_async
      (queue_put
        { our_address := 999, discovery := fun _ => 7, server_started := true,
          next_future_id := 1, future_values := [(0, none)],
          senthashes_to_states :=
            [(sha3cat (Msg.signedMsg 999 5 123).encode 200, ⟨0, 200⟩)] }
        (200, 5) (Msg.signedMsg 999 5 123).encode)
      200 (.signedMsg 999 5 123) =
      some
        (queue_put
          { our_address := 999, discovery := fun _ => 7, server_started := true,
            next_future_id := 1, future_values := [(0, none)],
            senthashes_to_states :=
              [(sha3cat (Msg.signedMsg 999 5 123).encode 200, ⟨0, 200⟩)] }
          (200, 5) (Msg.signedMsg 999 5 123).encode, 0) :=
  send_async_idempotent
    { our_address := 999, discovery := fun _ => 7, server_started := true }
    200 (.signedMsg 999 5 123) _ 0 rfl

/-- Behaviour of `receive` on a datagram whose echohash is cached: the
cached ack is re-emitted to the current discovery endpoint and the host
handler is not invoked. -/
theorem receive_cached (handler : Msg → EchoHash → OnMessageResult)
    (st : ProtocolState) (data : List Nat) (m : Msg)
    (hp : HostPort) (md : List Nat)
    (hsize : data.length ≤ UDP_MAX_MESSAGE_SIZE)
    (hdec : decode data = some m)
    (hlook : List.lookup (sha3cat data st.our_address)
      st.receivedhashes_to_acks = some (hp, md))
    (hcur : st.discovery m.sender = hp)
    (hsrv : st.server_started = true) :
    receive handler st data = some (st, [.transport_send hp md]) := by
  unfold receive
  rw [if_neg (by omega)]
  simp only [hdec, hlook]
  rw [hcur]
  rw [if_neg (by simp)]
  unfold maybe_send_ack_raw
  rw [if_pos hsrv]

/-- Claim C8: the first receipt of an application-message datagram calls
the host handler exactly once and caches the ack; a second receipt of
the same bytes does not call the handler and re-emits the cached ack to
the current discovery endpoint. -/
theorem receive_duplicate_reemits_cached_ack
    (handler : Msg → EchoHash → OnMessageResult) (st : ProtocolState)
    (data : List Nat) (m : Msg)
    (hsize : data.length ≤ UDP_MAX_MESSAGE_SIZE)
    (hdec : decode data = some m)
    (happ : ∀ s e, m ≠ .ackMsg s e)
    (hfresh : List.lookup (sha3cat data st.our_address)
      st.receivedhashes_to_acks = none)
    (hok : handler m (sha3cat data st.our_address) = .ok)
    (hstarted : st.server_started = true) :
    ∃ st1 ackdata,
      receive handler st data = some (st1,
        [.on_message m (sha3cat data st.our_address),
         .transport_send (st.discovery m.sender) ackdata]) ∧
      List.lookup (sha3cat data st.our_address) st1.receivedhashes_to_acks =
        some (st.discovery m.sender, ackdata) ∧
      receive handler st1 data = some (st1,
        [.transport_send (st.discovery m.sender) ackdata]) := by
  have hnot : ¬ UDP_MAX_MESSAGE_SIZE < data.length := by omega
  have hcache : acks_set st.receivedhashes_to_acks (sha3cat data st.our_address)
      (st.discovery m.sender,
        (Msg.ackMsg st.our_address (sha3cat data st.our_address)).encode) =
      st.receivedhashes_to_acks ++ [((sha3cat data st.our_address),
        (st.discovery m.sender,
          (Msg.ackMsg st.our_address (sha3cat data st.our_address)).encode))] := by
    unfold acks_set
    rw [if_neg (by rw [hfresh]; simp)]
  have hlook1 : List.lookup (sha3cat data st.our_address)
      (st.receivedhashes_to_acks ++ [((sha3cat data st.our_address),
        (st.discovery m.sender,
          (Msg.ackMsg st.our_address (sha3cat data st.our_address)).encode))]) =
      some (st.discovery m.sender,
        (Msg.ackMsg st.our_address (sha3cat data st.our_address)).encode) :=
    lookup_append_self _ _ _ hfresh
  cases m with
  | ackMsg s e => exact absurd rfl (happ s e)
  | pingMsg n s =>
    refine ⟨{ st with receivedhashes_to_acks := st.receivedhashes_to_acks ++
        [((sha3cat data st.our_address),
          (st.discovery (Msg.pingMsg n s).sender,
            (Msg.ackMsg st.our_address (sha3cat data st.our_address)).encode))] },
      (Msg.ackMsg st.our_address (sha3cat data st.our_address)).encode,
      ?_, ?_, ?_⟩
    · unfold receive
      rw [if_neg hnot]
      simp only [hdec, hfresh, hok, hcache]
      unfold maybe_send_ack_raw
      rw [if_pos hstarted]
      rfl
    · exact hlook1
    · exact receive_cached handler _ data (Msg.pingMsg n s) _ _ hsize hdec
        hlook1 rfl hstarted
  | signedMsg sn tk pl =>
    refine ⟨{ st with receivedhashes_to_acks := st.receivedhashes_to_acks ++
        [((sha3cat data st.our_address),
          (st.discovery (Msg.signedMsg sn tk pl).sender,
            (Msg.ackMsg st.our_address (sha3cat data st.our_address)).encode))] },
      (Msg.ackMsg st.our_address (sha3cat data st.our_address)).encode,
      ?_, ?_, ?_⟩
    · unfold receive
      rw [if_neg hnot]
      simp only [hdec, hfresh, hok, hcache]
      unfold maybe_send_ack_raw
      rw [if_pos hstarted]
      rfl
    · exact hlook1
    · exact receive_cached handler _ data (Msg.signedMsg sn tk pl) _ _ hsize hdec
        hlook1 rfl hstarted

theorem receive_duplicate_reemits_cached_ack_witness :
    ∃ st1 ackdata,
      receive (fun _ _ => .ok)
        { our_address := 999, discovery := fun _ => 7, server_started := true }
        (Msg.signedMsg 200 5 9).encode = some (st1,
        [.on_message (.signedMsg 200 5 9)
          (sha3cat (Msg.signedMsg 200 5 9).encode 999),
         .transport_send 7 ackdata]) ∧
      List.lookup (sha3cat (Msg.signedMsg 200 5 9).encode 999)
        st1.receivedhashes_to_acks = some (7, ackdata) ∧
      receive (fun _ _ => .ok) st1 (Msg.signedMsg 200 5 9).encode = some (st1,
        [.transport_send 7 ackdata]) :=
  receive_duplicate_reemits_cached_ack (fun _ _ => .ok)
    { our_address := 999, discovery := fun _ => 7, server_started := true }
    (Msg.signedMsg 200 5 9).encode (.signedMsg 200 5 9)
    (by decide) (by decide) (by intro s e h; exact nomatch h) rfl rfl rfl

end protocol

end Raiden
